import Mathlib

/-!
# OBCameraNode: stream lifecycle, point clouds and static transforms

A shallow embedding of `src/src/ob_camera_node.cpp`.

* Member maps keyed by a stream (`enable_`, `stream_started_`) are total functions on the
  stream keys.
* Calls into the sensor SDK are recorded in a list of `HwCall`s; what the hardware answers
  (success or a thrown error) and what the ROS publishers report (`getNumSubscribers`) is
  read from an `Env`.
* A C++ exception that leaves a function is the `thrown` field of its `Outcome`.
* Point coordinates are exact rationals: `static_cast<float>(v / 1000.0)` is `v / 1000`.
-/

namespace orbbec_camera

/-! ## Stream keys and the hardware boundary -/

/-- Modelled from the spec: the stream keys (`StreamKey`: COLOR, DEPTH, INFRARED[0..N]); the
header that declares `stream_index_pair` and the constants `COLOR`, `DEPTH`, `INFRA0`, ... is not
part of the sources. -/
inductive stream_index_pair
  | COLOR
  | DEPTH
  | INFRA0
  | INFRA1
  | INFRA2
  deriving DecidableEq, Repr, Fintype

open stream_index_pair

/-- An `ob::Error` thrown by the SDK, identified by a code standing for its message. -/
structure ObError where
  code : Nat
  deriving DecidableEq, Repr

/-- The configuration handed to `pipeline_->start`: the streams enabled in it. -/
abbrev PipelineConfig := List stream_index_pair

/-- One call into the sensor SDK. -/
inductive HwCall
  | sensorStart (k : stream_index_pair)
  | sensorStop (k : stream_index_pair)
  | pipelineStart (cfg : PipelineConfig)
  | pipelineStop
  deriving DecidableEq, Repr

/-- The constant tables of the node: `IMAGE_STREAMS` (declared in a header that is not part of
the sources, hence a parameter) and the keys present in the map `image_publishers_`. The key set
of `image_publishers_` is only iterated in pipeline mode, where no `operator[]` on it is ever
reached, so it is constant. -/
structure NodeTables where
  IMAGE_STREAMS : List stream_index_pair
  image_publishers_ : List stream_index_pair

/-- What the surroundings answer during one call: subscriber counts of the publishers and the
result of each hardware call (`none` is success, `some e` is a thrown error). The pipeline start
is indexed by the attempt number inside one `startStreams` call. -/
structure Env where
  numSubscribers : stream_index_pair → Nat
  depth_cloud_subscribers : Nat
  depth_registered_cloud_subscribers : Nat
  sensorStartStream : stream_index_pair → Option ObError
  sensorStopStream : stream_index_pair → Option ObError
  pipelineStart : Nat → Option ObError
  pipelineStop : Option ObError

/-- The lifecycle members of `OBCameraNode`. -/
structure NodeState where
  enable_pipeline_ : Bool
  enable_ : stream_index_pair → Bool
  stream_started_ : stream_index_pair → Bool
  pipeline_started_ : Bool
  deriving DecidableEq

/-- The result of a member function: the state it leaves, the hardware calls it made in order,
and the exception that left it, if any. -/
structure Outcome where
  state : NodeState
  calls : List HwCall
  thrown : Option ObError
  deriving DecidableEq

/-- A call that returns at once. -/
def Outcome.skip (s : NodeState) : Outcome :=
  { state := s, calls := [], thrown := none }

/-- Sequencing of two statements: the second runs only if the first did not throw. -/
def Outcome.andThen (r : Outcome) (f : NodeState → Outcome) : Outcome :=
  match r.thrown with
  | some _ => r
  | none =>
    let r2 := f r.state
    { state := r2.state, calls := r.calls ++ r2.calls, thrown := r2.thrown }

/-- Modelled from the spec: `setupPipelineConfig` is not part of the sources; "all enabled
modalities are started together as one pipeline", so the configuration enables the streams of
`IMAGE_STREAMS` whose `enable_` flag is set. -/
def setupPipelineConfig (tb : NodeTables) (s : NodeState) : PipelineConfig :=
  tb.IMAGE_STREAMS.filter (fun k => s.enable_ k)

/-! ## Stream lifecycle -/

/-- `OBCameraNode::startStream`. The three `CHECK_GE(count, 0u)` always hold; `catch (...)`
swallows whatever the sensor start throws. -/
def startStream (env : Env) (s : NodeState) (stream_index : stream_index_pair) : Outcome :=
  if s.enable_pipeline_ then Outcome.skip s
  else if !s.enable_ stream_index then Outcome.skip s
  else if s.stream_started_ stream_index then Outcome.skip s
  else
    let has_subscriber := decide (env.numSubscribers stream_index > 0)
    if !has_subscriber then Outcome.skip s
    else
      match env.sensorStartStream stream_index with
      | none =>
        { state := { s with stream_started_ := Function.update s.stream_started_ stream_index true },
          calls := [HwCall.sensorStart stream_index], thrown := none }
      | some _ =>
        { state := s, calls := [HwCall.sensorStart stream_index], thrown := none }

/-- `OBCameraNode::stopStream`. An error thrown by the sensor stop is not caught: it leaves
the function before `stream_started_[stream_index] = false`. -/
def stopStream (env : Env) (s : NodeState) (stream_index : stream_index_pair) : Outcome :=
  if s.enable_pipeline_ then Outcome.skip s
  else if !s.stream_started_ stream_index then Outcome.skip s
  else
    match env.sensorStopStream stream_index with
    | none =>
      { state := { s with stream_started_ := Function.update s.stream_started_ stream_index false },
        calls := [HwCall.sensorStop stream_index], thrown := none }
    | some e =>
      { state := s, calls := [HwCall.sensorStop stream_index], thrown := some e }

/-- The loop of the independent branch of `startStreams`. -/
def startStreamsLoop (env : Env) : NodeState → List stream_index_pair → Outcome
  | s, [] => Outcome.skip s
  | s, stream_index :: rest =>
    Outcome.andThen
      (if s.enable_ stream_index && !s.stream_started_ stream_index
        then startStream env s stream_index else Outcome.skip s)
      (fun s1 => startStreamsLoop env s1 rest)

/-- `OBCameraNode::startStreams`. `pipeline_` is taken to exist (`CHECK_NOTNULL`), and a failing
pipeline start throws an `ob::Error`, the one kind of exception the `catch` handles. The retry
sits in the `catch` block, outside any `try`, so its error leaves the function before
`pipeline_started_ = true`. -/
def startStreams (tb : NodeTables) (env : Env) (s : NodeState) : Outcome :=
  if s.enable_pipeline_ then
    let cfg0 := setupPipelineConfig tb s
    match env.pipelineStart 0 with
    | none =>
      { state := { s with pipeline_started_ := true },
        calls := [HwCall.pipelineStart cfg0], thrown := none }
    | some _ =>
      let s1 := { s with enable_ := Function.update s.enable_ INFRA0 false }
      let cfg1 := setupPipelineConfig tb s1
      match env.pipelineStart 1 with
      | none =>
        { state := { s1 with pipeline_started_ := true },
          calls := [HwCall.pipelineStart cfg0, HwCall.pipelineStart cfg1], thrown := none }
      | some e =>
        { state := s1,
          calls := [HwCall.pipelineStart cfg0, HwCall.pipelineStart cfg1], thrown := some e }
  else
    startStreamsLoop env s tb.IMAGE_STREAMS

/-- The loop of the independent branch of `stopStreams`. -/
def stopStreamsLoop (env : Env) : NodeState → List stream_index_pair → Outcome
  | s, [] => Outcome.skip s
  | s, stream_index :: rest =>
    Outcome.andThen
      (if s.stream_started_ stream_index then stopStream env s stream_index else Outcome.skip s)
      (fun s1 => stopStreamsLoop env s1 rest)

/-- `OBCameraNode::stopStreams`. -/
def stopStreams (tb : NodeTables) (env : Env) (s : NodeState) : Outcome :=
  if s.enable_pipeline_ then
    match env.pipelineStop with
    | none =>
      { state := { s with pipeline_started_ := false },
        calls := [HwCall.pipelineStop], thrown := none }
    | some e =>
      { state := s, calls := [HwCall.pipelineStop], thrown := some e }
  else
    stopStreamsLoop env s tb.IMAGE_STREAMS

/-- `OBCameraNode::imageSubscribedCallback`. -/
def imageSubscribedCallback (tb : NodeTables) (env : Env) (s : NodeState)
    (stream_index : stream_index_pair) : Outcome :=
  if s.enable_pipeline_ then
    if s.pipeline_started_ then Outcome.skip s
    else startStreams tb env s
  else
    if s.stream_started_ stream_index then Outcome.skip s
    else startStream env s stream_index

/-- `OBCameraNode::imageUnsubscribedCallback`. -/
def imageUnsubscribedCallback (tb : NodeTables) (env : Env) (s : NodeState)
    (stream_index : stream_index_pair) : Outcome :=
  if s.enable_pipeline_ then
    if !s.pipeline_started_ then Outcome.skip s
    else
      let all_stream_no_subscriber :=
        tb.image_publishers_.foldl
          (fun acc item => if env.numSubscribers item > 0 then false else acc) true
      if all_stream_no_subscriber then stopStreams tb env s else Outcome.skip s
  else
    if !s.stream_started_ stream_index then Outcome.skip s
    else
      let subscriber_count := env.numSubscribers stream_index
      if subscriber_count = 0 then stopStream env s stream_index else Outcome.skip s

/-- `OBCameraNode::pointCloudXYZSubscribedCallback`. -/
def pointCloudXYZSubscribedCallback (tb : NodeTables) (env : Env) (s : NodeState) : Outcome :=
  imageSubscribedCallback tb env s DEPTH

/-- `OBCameraNode::pointCloudXYZUnsubscribedCallback`. -/
def pointCloudXYZUnsubscribedCallback (tb : NodeTables) (env : Env) (s : NodeState) : Outcome :=
  imageUnsubscribedCallback tb env s DEPTH

/-- `OBCameraNode::pointCloudXYZRGBSubscribedCallback`. -/
def pointCloudXYZRGBSubscribedCallback (tb : NodeTables) (env : Env) (s : NodeState) : Outcome :=
  Outcome.andThen (imageSubscribedCallback tb env s DEPTH)
    (fun s1 => imageSubscribedCallback tb env s1 COLOR)

/-- `OBCameraNode::pointCloudXYZRGBUnsubscribedCallback`. -/
def pointCloudXYZRGBUnsubscribedCallback (tb : NodeTables) (env : Env) (s : NodeState) :
    Outcome :=
  Outcome.andThen (imageUnsubscribedCallback tb env s DEPTH)
    (fun s1 => imageUnsubscribedCallback tb env s1 COLOR)

/-! ## Point clouds -/

/-- A frame identifier of the node: `frame_id_[k]`, `optical_frame_id_[k]` and
`camera_link_frame_id_`. -/
inductive FrameId
  | frame_id_ (k : stream_index_pair)
  | optical_frame_id_ (k : stream_index_pair)
  | camera_link_frame_id_
  deriving DecidableEq, Repr

/-- `OBPoint`: one record of the point-cloud filter's output, in millimetres. -/
structure OBPoint where
  x : ℚ
  y : ℚ
  z : ℚ
  deriving DecidableEq

/-- `OBColorPoint`: a point record with colour channels. -/
structure OBColorPoint where
  x : ℚ
  y : ℚ
  z : ℚ
  r : ℚ
  g : ℚ
  b : ℚ
  deriving DecidableEq

/-- One point of a published `xyz` cloud. -/
structure PointXYZ where
  x : ℚ
  y : ℚ
  z : ℚ
  deriving DecidableEq

/-- One point of a published `xyz` + `rgb` cloud. -/
structure PointXYZRGB where
  x : ℚ
  y : ℚ
  z : ℚ
  r : Nat
  g : Nat
  b : Nat
  deriving DecidableEq

/-- The fields of `sensor_msgs::PointCloud2` the node sets; `data` is the point buffer, one
element for each `point_step` bytes. A frame's `dataSize()` is a 32-bit byte count, so the number
of records fits the 32-bit `width` field. -/
structure PointCloud2 (α : Type) where
  stamp : Nat
  frame_id : FrameId
  width : Nat
  height : Nat
  is_dense : Bool
  data : List α

/-- What the node reads of a video frame: its size and `systemTimeStamp()`. -/
structure VideoFrameInfo where
  width : Nat
  height : Nat
  systemTimeStamp : Nat

/-- The one-shot export flags. -/
structure CloudFlags where
  save_point_cloud_xyz_ : Bool
  save_point_cloud_xyzrgb_ : Bool
  deriving DecidableEq

/-- The result of one point-cloud generation call: the flags it leaves, the message passed to
`publish`, if any, and the frame passed to the PLY writer, if any. -/
structure CloudResult (α β : Type) where
  flags : CloudFlags
  published : Option (PointCloud2 α)
  saved : Option (List β)

/-- The `for` loop of `publishDepthPointCloud`: writing through the three iterators and
advancing them is appending one point to the part of the buffer written so far. -/
def depthCloudLoop : List OBPoint → List PointXYZ → Nat → List PointXYZ × Nat
  | [], out, valid_count => (out, valid_count)
  | p :: rest, out, valid_count =>
    let valid_pixel := decide (p.z > 0)
    if valid_pixel then
      depthCloudLoop rest (out ++ [{ x := p.x / 1000, y := -(p.y / 1000), z := p.z / 1000 }])
        (valid_count + 1)
    else depthCloudLoop rest out valid_count

/-- `OBCameraNode::publishDepthPointCloud`; `points` is the frame returned by
`cloud_filter_.process`, `subscribers` is `depth_cloud_pub_.getNumSubscribers()`. The final
`modifier.resize(valid_count)` keeps the first `valid_count` points of the buffer. -/
def publishDepthPointCloud (subscribers : Nat) (enable_point_cloud_ : Bool) (fl : CloudFlags)
    (depth_frame : VideoFrameInfo) (points : List OBPoint) : CloudResult PointXYZ OBPoint :=
  if subscribers = 0 || !enable_point_cloud_ then
    { flags := fl, published := none, saved := none }
  else
    let res := depthCloudLoop points [] 0
    let valid_count := res.2
    let cloud_msg_ : PointCloud2 PointXYZ :=
      { stamp := depth_frame.systemTimeStamp
        frame_id := FrameId.optical_frame_id_ DEPTH
        is_dense := true
        width := valid_count
        height := 1
        data := res.1.take valid_count }
    if fl.save_point_cloud_xyz_ then
      { flags := { fl with save_point_cloud_xyz_ := false }
        published := some cloud_msg_, saved := some points }
    else
      { flags := fl, published := some cloud_msg_, saved := none }

/-- `static_cast<uint8_t>` of a colour channel: truncation (defined for values in [0, 256)). -/
def toUint8 (v : ℚ) : Nat :=
  (Rat.floor v).toNat % 256

/-- The `for` loop of `publishColorPointCloud`. -/
def colorCloudLoop : List OBColorPoint → List PointXYZRGB → Nat → List PointXYZRGB × Nat
  | [], out, valid_count => (out, valid_count)
  | p :: rest, out, valid_count =>
    let valid_pixel := decide (p.z > 0)
    if valid_pixel then
      colorCloudLoop rest
        (out ++ [{ x := p.x / 1000, y := -(p.y / 1000), z := p.z / 1000,
                   r := toUint8 p.r, g := toUint8 p.g, b := toUint8 p.b }])
        (valid_count + 1)
    else colorCloudLoop rest out valid_count

/-- `OBCameraNode::publishColorPointCloud`; `subscribers` is
`depth_registered_cloud_pub_.getNumSubscribers()`. -/
def publishColorPointCloud (subscribers : Nat) (enable_point_cloud_xyzrgb_ : Bool)
    (fl : CloudFlags) (depth_frame : VideoFrameInfo) (points : List OBColorPoint) :
    CloudResult PointXYZRGB OBColorPoint :=
  if subscribers = 0 || !enable_point_cloud_xyzrgb_ then
    { flags := fl, published := none, saved := none }
  else
    let res := colorCloudLoop points [] 0
    let valid_count := res.2
    let cloud_msg_ : PointCloud2 PointXYZRGB :=
      { stamp := depth_frame.systemTimeStamp
        frame_id := FrameId.optical_frame_id_ COLOR
        is_dense := true
        width := valid_count
        height := 1
        data := res.1.take valid_count }
    if fl.save_point_cloud_xyzrgb_ then
      { flags := { fl with save_point_cloud_xyz_ := false }
        published := some cloud_msg_, saved := some points }
    else
      { flags := fl, published := some cloud_msg_, saved := none }

/-! ## Calibration and static transforms -/

/-- The fields of `OBCameraIntrinsic` the node reads. -/
structure OBCameraIntrinsic where
  width : Int
  height : Int
  deriving DecidableEq

/-- `OBD2CTransform`: a row of nine rotation entries and three translation entries (mm). -/
structure OBD2CTransform where
  rot : List ℚ
  trans : List ℚ
  deriving DecidableEq

/-- `OBCameraParam`. -/
structure OBCameraParam where
  depthIntrinsic : OBCameraIntrinsic
  rgbIntrinsic : OBCameraIntrinsic
  transform : OBD2CTransform
  deriving DecidableEq

/-- The configured resolutions `width_` and `height_`. -/
structure Resolution where
  width_ : stream_index_pair → Int
  height_ : stream_index_pair → Int

/-- The test of the loop body of `getCameraParam` and `getCameraParamIndex`. The products are
exact: signed overflow is undefined in the source. -/
def paramMatches (res : Resolution) (param : OBCameraParam) : Bool :=
  let depth_w := param.depthIntrinsic.width
  let depth_h := param.depthIntrinsic.height
  let color_w := param.rgbIntrinsic.width
  let color_h := param.rgbIntrinsic.height
  decide (depth_w * res.height_ DEPTH = depth_h * res.width_ DEPTH) &&
    decide (color_w * res.height_ COLOR = color_h * res.width_ COLOR)

/-- `OBCameraNode::getCameraParam`; `camera_params` is `getCalibrationCameraParamList()`. -/
def getCameraParam (res : Resolution) : List OBCameraParam → Option OBCameraParam
  | [] => none
  | param :: rest => if paramMatches res param then some param else getCameraParam res rest

/-- The loop of `getCameraParamIndex`, from index `i` on. -/
def getCameraParamIndexFrom (res : Resolution) : List OBCameraParam → Nat → Int
  | [], _ => -1
  | param :: rest, i =>
    if paramMatches res param then (i : Int) else getCameraParamIndexFrom res rest (i + 1)

/-- `OBCameraNode::getCameraParamIndex`. -/
def getCameraParamIndex (res : Resolution) (camera_params : List OBCameraParam) : Int :=
  getCameraParamIndexFrom res camera_params 0

/-- `tf2::Quaternion`, over exact numbers. -/
structure Quaternion where
  x : ℚ
  y : ℚ
  z : ℚ
  w : ℚ
  deriving DecidableEq

/-- `tf2::Quaternion::operator*`. -/
def Quaternion.mul (q1 q2 : Quaternion) : Quaternion :=
  { x := q1.w * q2.x + q1.x * q2.w + q1.y * q2.z - q1.z * q2.y
    y := q1.w * q2.y + q1.y * q2.w + q1.z * q2.x - q1.x * q2.z
    z := q1.w * q2.z + q1.z * q2.w + q1.x * q2.y - q1.y * q2.x
    w := q1.w * q2.w - q1.x * q2.x - q1.y * q2.y - q1.z * q2.z }

/-- `tf2::Quaternion::inverse`. -/
def Quaternion.inverse (q : Quaternion) : Quaternion :=
  { x := -q.x, y := -q.y, z := -q.z, w := q.w }

/-- `setRPY(0, 0, 0)`: the identity rotation. -/
def zero_rot : Quaternion :=
  { x := 0, y := 0, z := 0, w := 1 }

/-- `setRPY(-M_PI / 2, 0.0, -M_PI / 2)`: with half angles of -45 degrees the components are
`sr*cy = -1/2`, `sr*sy = 1/2`, `cr*sy = -1/2`, `cr*cy = 1/2`. -/
def quaternion_optical : Quaternion :=
  { x := -1 / 2, y := 1 / 2, z := -1 / 2, w := 1 / 2 }

/-- The three-component translation of a transform message, in metres. -/
structure Vector3 where
  x : ℚ
  y : ℚ
  z : ℚ
  deriving DecidableEq

/-- `geometry_msgs::TransformStamped`. -/
structure TransformStamped where
  stamp : Nat
  frame_id : FrameId
  child_frame_id : FrameId
  translation : Vector3
  rotation : Quaternion
  deriving DecidableEq

/-- `OBCameraNode::publishStaticTF`: appends one message to `static_tf_msgs_`; `none` is the
failed `CHECK_EQ(trans.size(), 3u)`. -/
def publishStaticTF (static_tf_msgs_ : List TransformStamped) (t : Nat) (trans : List ℚ)
    (q : Quaternion) (from_id to_id : FrameId) : Option (List TransformStamped) :=
  if trans.length = 3 then
    some (static_tf_msgs_ ++
      [{ stamp := t, frame_id := from_id, child_frame_id := to_id
         translation :=
          { x := trans.getD 2 0 / 1000
            y := -(trans.getD 0 0) / 1000
            z := -(trans.getD 1 0) / 1000 }
         rotation := q }])
  else none

/-- What `calcAndPublishStaticTransform` leaves: the list `static_tf_msgs_` and the extrinsics
it passed to `extrinsics_publisher_`, if any. -/
structure StaticTfResult where
  static_tf_msgs_ : List TransformStamped
  extrinsics : Option OBD2CTransform
  deriving DecidableEq

/-- `OBCameraNode::calcAndPublishStaticTransform`. The helper `rotationMatrixToQuaternion` is not
part of the sources and is a parameter; `now` is `ros::Time::now()`. -/
def calcAndPublishStaticTransform (rotationMatrixToQuaternion : List ℚ → Quaternion)
    (res : Resolution) (camera_params : List OBCameraParam) (now : Nat)
    (static_tf_msgs_ : List TransformStamped) : Option StaticTfResult :=
  let trans : List ℚ := List.replicate 3 0
  let zero_trans : List ℚ := [0, 0, 0]
  let camera_param := getCameraParam res camera_params
  let Q : Quaternion :=
    match camera_param with
    | some p =>
      Quaternion.mul (Quaternion.mul quaternion_optical (rotationMatrixToQuaternion p.transform.rot))
        (Quaternion.inverse quaternion_optical)
    | none => zero_rot
  let tf_timestamp := now
  (publishStaticTF static_tf_msgs_ tf_timestamp trans Q
      (FrameId.frame_id_ DEPTH) (FrameId.frame_id_ COLOR)).bind fun m1 =>
  (publishStaticTF m1 tf_timestamp zero_trans quaternion_optical
      (FrameId.frame_id_ COLOR) (FrameId.optical_frame_id_ COLOR)).bind fun m2 =>
  (publishStaticTF m2 tf_timestamp zero_trans quaternion_optical
      (FrameId.frame_id_ DEPTH) (FrameId.optical_frame_id_ DEPTH)).bind fun m3 =>
  (publishStaticTF m3 tf_timestamp zero_trans zero_rot
      FrameId.camera_link_frame_id_ (FrameId.frame_id_ DEPTH)).map fun m4 =>
  { static_tf_msgs_ := m4, extrinsics := camera_param.map (fun p => p.transform) }

/-- One iteration of the loop of `publishDynamicTransforms` at time `t`: the stored list after
the iteration and the list handed to `sendTransform`. -/
def publishDynamicTransformsStep (t : Nat) (static_tf_msgs_ : List TransformStamped) :
    List TransformStamped × List TransformStamped :=
  let stamped := static_tf_msgs_.map (fun msg => { msg with stamp := t })
  (stamped, stamped)

/-- The output point written for a valid record. -/
def depthPointOf (p : OBPoint) : PointXYZ :=
  { x := p.x / 1000, y := -(p.y / 1000), z := p.z / 1000 }

/-! ## Runs of lifecycle operations -/

/-- The operations that change the lifecycle state. -/
inductive LifecycleOp
  | startStreams
  | stopStreams
  | startStream (k : stream_index_pair)
  | stopStream (k : stream_index_pair)
  | imageSubscribed (k : stream_index_pair)
  | imageUnsubscribed (k : stream_index_pair)
  | pointCloudXYZSubscribed
  | pointCloudXYZUnsubscribed
  | pointCloudXYZRGBSubscribed
  | pointCloudXYZRGBUnsubscribed
  deriving DecidableEq, Repr

/-- One operation in one environment. -/
def applyOp (tb : NodeTables) (env : Env) (s : NodeState) : LifecycleOp → Outcome
  | LifecycleOp.startStreams => startStreams tb env s
  | LifecycleOp.stopStreams => stopStreams tb env s
  | LifecycleOp.startStream k => startStream env s k
  | LifecycleOp.stopStream k => stopStream env s k
  | LifecycleOp.imageSubscribed k => imageSubscribedCallback tb env s k
  | LifecycleOp.imageUnsubscribed k => imageUnsubscribedCallback tb env s k
  | LifecycleOp.pointCloudXYZSubscribed => pointCloudXYZSubscribedCallback tb env s
  | LifecycleOp.pointCloudXYZUnsubscribed => pointCloudXYZUnsubscribedCallback tb env s
  | LifecycleOp.pointCloudXYZRGBSubscribed => pointCloudXYZRGBSubscribedCallback tb env s
  | LifecycleOp.pointCloudXYZRGBUnsubscribed => pointCloudXYZRGBUnsubscribedCallback tb env s

/-- A run: each operation meets its own environment; the state an operation leaves (also when
an exception left it) is the state the next one finds. -/
def runOps (tb : NodeTables) : NodeState → List (LifecycleOp × Env) → NodeState
  | s, [] => s
  | s, (op, env) :: rest => runOps tb (applyOp tb env s op).state rest

/-! ## Concrete inputs -/

/-- The stream tables with depth, infrared and colour. -/
def tablesDepthIrColor : NodeTables :=
  { IMAGE_STREAMS := [DEPTH, INFRA0, COLOR], image_publishers_ := [DEPTH, INFRA0, COLOR] }

/-- Independent mode, every stream enabled, nothing started. -/
def independentIdle : NodeState :=
  { enable_pipeline_ := false, enable_ := fun _ => true,
    stream_started_ := fun _ => false, pipeline_started_ := false }

/-- Independent mode, every stream enabled, depth and colour started. -/
def independentDepthColorStarted : NodeState :=
  { enable_pipeline_ := false, enable_ := fun _ => true,
    stream_started_ := fun k => decide (k = DEPTH) || decide (k = COLOR),
    pipeline_started_ := false }

/-- Synchronized mode, every stream enabled, pipeline not started. -/
def pipelineIdle : NodeState :=
  { enable_pipeline_ := true, enable_ := fun _ => true,
    stream_started_ := fun _ => false, pipeline_started_ := false }

/-- Working hardware; the only subscriber is one on the colour-registered cloud. -/
def envOnlyColorCloudSubscriber : Env :=
  { numSubscribers := fun _ => 0
    depth_cloud_subscribers := 0
    depth_registered_cloud_subscribers := 1
    sensorStartStream := fun _ => none
    sensorStopStream := fun _ => none
    pipelineStart := fun _ => none
    pipelineStop := none }

/-- Working hardware; no depth image subscriber, one colour image subscriber, one subscriber on
the depth cloud and one left on the colour-registered cloud. -/
def envCloudSubscribersRemain : Env :=
  { numSubscribers := fun k => if k = COLOR then 1 else 0
    depth_cloud_subscribers := 1
    depth_registered_cloud_subscribers := 1
    sensorStartStream := fun _ => none
    sensorStopStream := fun _ => none
    pipelineStart := fun _ => none
    pipelineStop := none }

/-- Working hardware; one subscriber on every publisher. -/
def envAllSubscribed : Env :=
  { numSubscribers := fun _ => 1
    depth_cloud_subscribers := 1
    depth_registered_cloud_subscribers := 1
    sensorStartStream := fun _ => none
    sensorStopStream := fun _ => none
    pipelineStart := fun _ => none
    pipelineStop := none }

/-- One subscriber on every publisher; the first pipeline start of a call throws, the second
succeeds; sensor starts throw. -/
def envFirstPipelineStartFails : Env :=
  { numSubscribers := fun _ => 1
    depth_cloud_subscribers := 1
    depth_registered_cloud_subscribers := 1
    sensorStartStream := fun _ => some ⟨3⟩
    sensorStopStream := fun _ => none
    pipelineStart := fun i => if i = 0 then some ⟨1⟩ else none
    pipelineStop := none }

/-- One subscriber on every publisher; every pipeline start throws. -/
def envPipelineStartFails : Env :=
  { numSubscribers := fun _ => 1
    depth_cloud_subscribers := 1
    depth_registered_cloud_subscribers := 1
    sensorStartStream := fun _ => none
    sensorStopStream := fun _ => none
    pipelineStart := fun i => some ⟨i + 1⟩
    pipelineStop := none }

/-- The configured resolution 640 x 480 for every stream. -/
def res_640_480 : Resolution :=
  { width_ := fun _ => 640, height_ := fun _ => 480 }

/-- A calibration entry for 640 x 480 with identity rotation and translation (10, 20, 30) mm. -/
def calib_10_20_30 : OBCameraParam :=
  { depthIntrinsic := { width := 640, height := 480 }
    rgbIntrinsic := { width := 640, height := 480 }
    transform := { rot := [1, 0, 0, 0, 1, 0, 0, 0, 1], trans := [10, 20, 30] } }

/-- The lifecycle invariant: a started stream is enabled, and streams are started one by one
only in independent mode. -/
def LifecycleInv (s : NodeState) : Prop :=
  ∀ k, s.stream_started_ k = true → s.enable_ k = true ∧ s.enable_pipeline_ = false

/-- The output point written for a valid colour record. -/
def colorPointOf (p : OBColorPoint) : PointXYZRGB :=
  { x := p.x / 1000, y := -(p.y / 1000), z := p.z / 1000,
    r := toUint8 p.r, g := toUint8 p.g, b := toUint8 p.b }

/-- The selection rule in the words of the specification, to be compared with `paramMatches`:
`depthIntrinsic.width * configured.height == depthIntrinsic.height * configured.width` for the
depth stream, and the same equation for the colour intrinsic and the colour stream. -/
def MatchesResolution (res : Resolution) (param : OBCameraParam) : Prop :=
  param.depthIntrinsic.width * res.height_ DEPTH =
      param.depthIntrinsic.height * res.width_ DEPTH ∧
    param.rgbIntrinsic.width * res.height_ COLOR =
      param.rgbIntrinsic.height * res.width_ COLOR

instance instDecidableMatchesResolution (res : Resolution) (param : OBCameraParam) :
    Decidable (MatchesResolution res param) := by
  unfold MatchesResolution
  infer_instance

/-- A calibration entry for 1280 x 720, which has another aspect than 640 x 480. -/
def calib_1280_720 : OBCameraParam :=
  { depthIntrinsic := { width := 1280, height := 720 }
    rgbIntrinsic := { width := 1280, height := 720 }
    transform := { rot := [0, -1, 0, 1, 0, 0, 0, 0, 1], trans := [1, 2, 3] } }

/-- Synchronized mode, every stream enabled, pipeline started. -/
def pipelineRunning : NodeState :=
  { enable_pipeline_ := true, enable_ := fun _ => true,
    stream_started_ := fun _ => false, pipeline_started_ := true }

/-- Working hardware; no image output has a subscriber, the depth cloud and the
colour-registered cloud have one each. -/
def envOnlyCloudSubscribers : Env :=
  { numSubscribers := fun _ => 0
    depth_cloud_subscribers := 1
    depth_registered_cloud_subscribers := 1
    sensorStartStream := fun _ => none
    sensorStopStream := fun _ => none
    pipelineStart := fun _ => none
    pipelineStop := none }

/-! ## Point-cloud generation: the validity filter -/

theorem depthCloudLoop_eq (points : List OBPoint) (out : List PointXYZ) (n : Nat) :
    depthCloudLoop points out n =
      (out ++ (points.filter (fun p => decide (p.z > 0))).map depthPointOf,
        n + (points.filter (fun p => decide (p.z > 0))).length) := by
  induction points generalizing out n with
  | nil => simp [depthCloudLoop]
  | cons p rest ih =>
    by_cases hz : p.z > 0
    · simp [depthCloudLoop, hz, ih, depthPointOf]
      omega
    · simp [depthCloudLoop, hz, ih]

theorem filter_pos_length (points : List OBPoint) :
    (points.filter (fun p => decide (p.z > 0))).length =
      points.length - points.countP (fun p => decide (p.z ≤ 0)) := by
  induction points with
  | nil => simp
  | cons p rest ih =>
    have hle : rest.countP (fun p => decide (p.z ≤ 0)) ≤ rest.length := List.countP_le_length _
    by_cases hz : p.z > 0
    · have hz2 : ¬ p.z ≤ 0 := not_le.mpr hz
      simp only [List.filter_cons, hz, decide_True, if_true, List.length_cons,
        List.countP_cons, hz2, decide_False, ih]
      simp
      omega
    · have hz2 : p.z ≤ 0 := not_lt.mp hz
      simp only [List.filter_cons, hz, decide_False, List.length_cons,
        List.countP_cons, hz2, decide_True, if_true]
      simpa using ih

/-- C1: with a subscriber present and point clouds enabled, `publishDepthPointCloud` publishes a
message whose points are the records with `z > 0`, in order, so that of `N` records with `M`
having `z ≤ 0` exactly `N - M` points are emitted (and `width` is that count), and every emitted
point comes from a record with `z > 0` with `x/1000`, `-y/1000`, `z/1000` as coordinates. -/
theorem publishDepthPointCloud_valid_points (subscribers : Nat) (fl : CloudFlags)
    (depth_frame : VideoFrameInfo) (points : List OBPoint) (hsub : subscribers ≠ 0) :
    ∃ msg, (publishDepthPointCloud subscribers true fl depth_frame points).published = some msg ∧
      msg.data = (points.filter (fun p => decide (p.z > 0))).map depthPointOf ∧
      msg.data.length = points.length - points.countP (fun p => decide (p.z ≤ 0)) ∧
      msg.width = points.length - points.countP (fun p => decide (p.z ≤ 0)) ∧
      ∀ out ∈ msg.data, ∃ raw ∈ points, raw.z > 0 ∧
        out.x = raw.x / 1000 ∧ out.y = -raw.y / 1000 ∧ out.z = raw.z / 1000 := by
  have hdata : ((depthCloudLoop points [] 0).1.take (depthCloudLoop points [] 0).2) =
      (points.filter (fun p => decide (p.z > 0))).map depthPointOf := by
    rw [depthCloudLoop_eq]
    simp
  have hcount : (depthCloudLoop points [] 0).2 =
      points.length - points.countP (fun p => decide (p.z ≤ 0)) := by
    rw [depthCloudLoop_eq]
    simp [filter_pos_length]
  have hmem : ∀ out ∈ (points.filter (fun p => decide (p.z > 0))).map depthPointOf,
      ∃ raw ∈ points, raw.z > 0 ∧
        out.x = raw.x / 1000 ∧ out.y = -raw.y / 1000 ∧ out.z = raw.z / 1000 := by
    intro out hout
    obtain ⟨raw, hraw, rfl⟩ := List.mem_map.mp hout
    have h2 := List.mem_filter.mp hraw
    refine ⟨raw, h2.1, by simpa using h2.2, rfl, ?_, rfl⟩
    simp [depthPointOf, neg_div]
  by_cases hsave : fl.save_point_cloud_xyz_ = true
  · refine ⟨_, by simp [publishDepthPointCloud, hsub, hsave]; rfl, ?_, ?_, ?_, ?_⟩
    · exact hdata
    · simp only [hdata, List.length_map, filter_pos_length]
    · exact hcount
    · simpa only [hdata] using hmem
  · refine ⟨_, by simp [publishDepthPointCloud, hsub, hsave]; rfl, ?_, ?_, ?_, ?_⟩
    · exact hdata
    · simp only [hdata, List.length_map, filter_pos_length]
    · exact hcount
    · simpa only [hdata] using hmem

/-- A witness of C1: three records, two of them with `z ≤ 0`. -/
theorem publishDepthPointCloud_valid_points_witness :
    ∃ msg, (publishDepthPointCloud 1 true ⟨false, false⟩ ⟨3, 1, 7⟩
        [⟨1000, 2000, 3000⟩, ⟨1, 1, 0⟩, ⟨5, 5, -7⟩]).published = some msg ∧
      msg.data = (([⟨1000, 2000, 3000⟩, ⟨1, 1, 0⟩, ⟨5, 5, -7⟩] : List OBPoint).filter
        (fun p => decide (p.z > 0))).map depthPointOf ∧
      msg.data.length = ([⟨1000, 2000, 3000⟩, ⟨1, 1, 0⟩, ⟨5, 5, -7⟩] : List OBPoint).length -
        ([⟨1000, 2000, 3000⟩, ⟨1, 1, 0⟩, ⟨5, 5, -7⟩] : List OBPoint).countP
          (fun p => decide (p.z ≤ 0)) ∧
      msg.width = ([⟨1000, 2000, 3000⟩, ⟨1, 1, 0⟩, ⟨5, 5, -7⟩] : List OBPoint).length -
        ([⟨1000, 2000, 3000⟩, ⟨1, 1, 0⟩, ⟨5, 5, -7⟩] : List OBPoint).countP
          (fun p => decide (p.z ≤ 0)) ∧
      ∀ out ∈ msg.data, ∃ raw ∈ ([⟨1000, 2000, 3000⟩, ⟨1, 1, 0⟩, ⟨5, 5, -7⟩] : List OBPoint),
        raw.z > 0 ∧ out.x = raw.x / 1000 ∧ out.y = -raw.y / 1000 ∧ out.z = raw.z / 1000 :=
  publishDepthPointCloud_valid_points 1 ⟨false, false⟩ ⟨3, 1, 7⟩
    [⟨1000, 2000, 3000⟩, ⟨1, 1, 0⟩, ⟨5, 5, -7⟩] (by decide)

/-! ## Static transforms -/

theorem calcAndPublishStaticTransform_eq
    (rotationMatrixToQuaternion : List ℚ → Quaternion) (res : Resolution)
    (camera_params : List OBCameraParam) (now : Nat) (msgs : List TransformStamped) :
    calcAndPublishStaticTransform rotationMatrixToQuaternion res camera_params now msgs =
      some
        { static_tf_msgs_ := msgs ++
            [{ stamp := now, frame_id := FrameId.frame_id_ DEPTH
               child_frame_id := FrameId.frame_id_ COLOR
               translation := { x := 0, y := 0, z := 0 }
               rotation :=
                match getCameraParam res camera_params with
                | some p =>
                  Quaternion.mul
                    (Quaternion.mul quaternion_optical
                      (rotationMatrixToQuaternion p.transform.rot))
                    (Quaternion.inverse quaternion_optical)
                | none => zero_rot },
             { stamp := now, frame_id := FrameId.frame_id_ COLOR
               child_frame_id := FrameId.optical_frame_id_ COLOR
               translation := { x := 0, y := 0, z := 0 }
               rotation := quaternion_optical },
             { stamp := now, frame_id := FrameId.frame_id_ DEPTH
               child_frame_id := FrameId.optical_frame_id_ DEPTH
               translation := { x := 0, y := 0, z := 0 }
               rotation := quaternion_optical },
             { stamp := now, frame_id := FrameId.camera_link_frame_id_
               child_frame_id := FrameId.frame_id_ DEPTH
               translation := { x := 0, y := 0, z := 0 }
               rotation := zero_rot }]
          extrinsics := (getCameraParam res camera_params).map (fun p => p.transform) } := by
  simp [calcAndPublishStaticTransform, publishStaticTF, List.replicate]

theorem getCameraParam_calib_10_20_30 :
    getCameraParam res_640_480 [calib_10_20_30] = some calib_10_20_30 := by
  simp [getCameraParam, paramMatches, calib_10_20_30, res_640_480]

/-- C2: at a matched calibration entry with identity rotation and translation (10, 20, 30) mm,
`calcAndPublishStaticTransform` publishes these extrinsics, but the depth to colour transform it
appends (the first of the four) has translation (0, 0, 0): the vector `trans` is never filled
from the extrinsics, so the value (30/1000, -10/1000, -20/1000) is not produced. -/
theorem calcAndPublishStaticTransform_ignores_translation
    (rotationMatrixToQuaternion : List ℚ → Quaternion) (now : Nat) :
    (calcAndPublishStaticTransform rotationMatrixToQuaternion res_640_480
        [calib_10_20_30] now []).map
      (fun r => (r.extrinsics,
        r.static_tf_msgs_.map (fun m => (m.frame_id, m.child_frame_id, m.translation)))) =
      some (some { rot := [1, 0, 0, 0, 1, 0, 0, 0, 1], trans := [10, 20, 30] },
        [(FrameId.frame_id_ DEPTH, FrameId.frame_id_ COLOR, { x := 0, y := 0, z := 0 }),
         (FrameId.frame_id_ COLOR, FrameId.optical_frame_id_ COLOR, { x := 0, y := 0, z := 0 }),
         (FrameId.frame_id_ DEPTH, FrameId.optical_frame_id_ DEPTH, { x := 0, y := 0, z := 0 }),
         (FrameId.camera_link_frame_id_, FrameId.frame_id_ DEPTH, { x := 0, y := 0, z := 0 })]) ∧
    (calcAndPublishStaticTransform rotationMatrixToQuaternion res_640_480
        [calib_10_20_30] now []).map
      (fun r => r.static_tf_msgs_.head?.map (fun m => m.translation)) ≠
      some (some { x := 30 / 1000, y := -10 / 1000, z := -20 / 1000 }) := by
  rw [calcAndPublishStaticTransform_eq, getCameraParam_calib_10_20_30]
  constructor
  · simp [calib_10_20_30]
  · simp
    norm_num

/-- The translation arithmetic of `publishStaticTF` alone: handed the vector (10, 20, 30) it
appends a message with translation (30/1000, -10/1000, -20/1000). -/
theorem publishStaticTF_translation (msgs : List TransformStamped) (t : Nat) (q : Quaternion)
    (from_id to_id : FrameId) :
    publishStaticTF msgs t [10, 20, 30] q from_id to_id =
      some (msgs ++ [{ stamp := t, frame_id := from_id, child_frame_id := to_id
                       translation := { x := 30 / 1000, y := -10 / 1000, z := -20 / 1000 }
                       rotation := q }]) := by
  simp [publishStaticTF]

/-! ## The lifecycle invariant -/

theorem skip_state (s : NodeState) : (Outcome.skip s).state = s := rfl

theorem andThen_of_not_thrown (r : Outcome) (f : NodeState → Outcome) (h : r.thrown = none) :
    Outcome.andThen r f =
      { state := (f r.state).state, calls := r.calls ++ (f r.state).calls,
        thrown := (f r.state).thrown } := by
  simp [Outcome.andThen, h]

theorem andThen_inv (r : Outcome) (f : NodeState → Outcome) (hr : LifecycleInv r.state)
    (hf : ∀ s, LifecycleInv s → LifecycleInv (f s).state) :
    LifecycleInv (Outcome.andThen r f).state := by
  unfold Outcome.andThen
  cases ht : r.thrown with
  | none => exact hf _ hr
  | some e => exact hr

theorem startStream_ok (env : Env) (s : NodeState) (k : stream_index_pair)
    (hp : s.enable_pipeline_ = false) (he : s.enable_ k = true)
    (hs : s.stream_started_ k = false) (hn : env.numSubscribers k > 0)
    (hw : env.sensorStartStream k = none) :
    startStream env s k =
      { state := { s with stream_started_ := Function.update s.stream_started_ k true },
        calls := [HwCall.sensorStart k], thrown := none } := by
  simp [startStream, hp, he, hs, hn, hw]

theorem startStream_failed (env : Env) (s : NodeState) (k : stream_index_pair) (e : ObError)
    (hp : s.enable_pipeline_ = false) (he : s.enable_ k = true)
    (hs : s.stream_started_ k = false) (hn : env.numSubscribers k > 0)
    (hw : env.sensorStartStream k = some e) :
    startStream env s k =
      { state := s, calls := [HwCall.sensorStart k], thrown := none } := by
  simp [startStream, hp, he, hs, hn, hw]

theorem startStream_skip (env : Env) (s : NodeState) (k : stream_index_pair)
    (h : s.enable_pipeline_ = true ∨ s.enable_ k = false ∨ s.stream_started_ k = true ∨
      env.numSubscribers k = 0) :
    startStream env s k = Outcome.skip s := by
  unfold startStream
  rcases h with h | h | h | h
  · simp [h]
  · simp [h]
  · simp [h]
  · simp [h]

theorem stopStream_ok (env : Env) (s : NodeState) (k : stream_index_pair)
    (hp : s.enable_pipeline_ = false) (hs : s.stream_started_ k = true)
    (hw : env.sensorStopStream k = none) :
    stopStream env s k =
      { state := { s with stream_started_ := Function.update s.stream_started_ k false },
        calls := [HwCall.sensorStop k], thrown := none } := by
  simp [stopStream, hp, hs, hw]

theorem stopStream_failed (env : Env) (s : NodeState) (k : stream_index_pair) (e : ObError)
    (hp : s.enable_pipeline_ = false) (hs : s.stream_started_ k = true)
    (hw : env.sensorStopStream k = some e) :
    stopStream env s k =
      { state := s, calls := [HwCall.sensorStop k], thrown := some e } := by
  simp [stopStream, hp, hs, hw]

theorem stopStream_skip (env : Env) (s : NodeState) (k : stream_index_pair)
    (h : s.enable_pipeline_ = true ∨ s.stream_started_ k = false) :
    stopStream env s k = Outcome.skip s := by
  unfold stopStream
  rcases h with h | h
  · simp [h]
  · simp [h]

theorem startStream_inv (env : Env) (s : NodeState) (k : stream_index_pair)
    (h : LifecycleInv s) : LifecycleInv (startStream env s k).state := by
  by_cases hp : s.enable_pipeline_ = true
  · rw [startStream_skip env s k (Or.inl hp)]
    exact h
  by_cases he : s.enable_ k = true
  swap
  · rw [startStream_skip env s k (Or.inr (Or.inl (by simpa using he)))]
    exact h
  by_cases hs : s.stream_started_ k = true
  · rw [startStream_skip env s k (Or.inr (Or.inr (Or.inl hs)))]
    exact h
  by_cases hn : env.numSubscribers k = 0
  · rw [startStream_skip env s k (Or.inr (Or.inr (Or.inr hn)))]
    exact h
  have hp2 : s.enable_pipeline_ = false := by simpa using hp
  have hs2 : s.stream_started_ k = false := by simpa using hs
  cases hw : env.sensorStartStream k with
  | some e =>
    rw [startStream_failed env s k e hp2 he hs2 (Nat.pos_of_ne_zero hn) hw]
    exact h
  | none =>
    rw [startStream_ok env s k hp2 he hs2 (Nat.pos_of_ne_zero hn) hw]
    intro j hj
    by_cases hjk : j = k
    · subst hjk
      exact ⟨he, hp2⟩
    · have hj2 : s.stream_started_ j = true := by
        simpa [Function.update, hjk] using hj
      exact h j hj2

theorem stopStream_inv (env : Env) (s : NodeState) (k : stream_index_pair)
    (h : LifecycleInv s) : LifecycleInv (stopStream env s k).state := by
  by_cases hp : s.enable_pipeline_ = true
  · rw [stopStream_skip env s k (Or.inl hp)]
    exact h
  by_cases hs : s.stream_started_ k = true
  swap
  · rw [stopStream_skip env s k (Or.inr (by simpa using hs))]
    exact h
  have hp2 : s.enable_pipeline_ = false := by simpa using hp
  cases hw : env.sensorStopStream k with
  | some e =>
    rw [stopStream_failed env s k e hp2 hs hw]
    exact h
  | none =>
    rw [stopStream_ok env s k hp2 hs hw]
    intro j hj
    by_cases hjk : j = k
    · subst hjk
      simp [Function.update] at hj
    · have hj2 : s.stream_started_ j = true := by
        simpa [Function.update, hjk] using hj
      exact h j hj2

theorem startStreamsLoop_inv (env : Env) (l : List stream_index_pair) (s : NodeState)
    (h : LifecycleInv s) : LifecycleInv (startStreamsLoop env s l).state := by
  induction l generalizing s with
  | nil => exact h
  | cons k rest ih =>
    unfold startStreamsLoop
    apply andThen_inv
    · split
      · exact startStream_inv env s k h
      · exact h
    · intro s1 h1
      exact ih s1 h1

theorem stopStreamsLoop_inv (env : Env) (l : List stream_index_pair) (s : NodeState)
    (h : LifecycleInv s) : LifecycleInv (stopStreamsLoop env s l).state := by
  induction l generalizing s with
  | nil => exact h
  | cons k rest ih =>
    unfold stopStreamsLoop
    apply andThen_inv
    · split
      · exact stopStream_inv env s k h
      · exact h
    · intro s1 h1
      exact ih s1 h1

theorem inv_of_same_started (s t : NodeState) (h : LifecycleInv s)
    (hp : s.enable_pipeline_ = true) (hst : t.stream_started_ = s.stream_started_) :
    LifecycleInv t := by
  intro k hk
  rw [hst] at hk
  have := (h k hk).2
  rw [hp] at this
  exact absurd this (by simp)

theorem startStreams_inv (tb : NodeTables) (env : Env) (s : NodeState)
    (h : LifecycleInv s) : LifecycleInv (startStreams tb env s).state := by
  unfold startStreams
  by_cases hp : s.enable_pipeline_ = true
  · simp only [hp, if_true]
    cases h0 : env.pipelineStart 0 with
    | none => exact inv_of_same_started s _ h hp rfl
    | some e0 =>
      cases h1 : env.pipelineStart 1 with
      | none => exact inv_of_same_started s _ h hp rfl
      | some e1 => exact inv_of_same_started s _ h hp rfl
  · simp only [hp]
    exact startStreamsLoop_inv env _ s h

theorem stopStreams_inv (tb : NodeTables) (env : Env) (s : NodeState)
    (h : LifecycleInv s) : LifecycleInv (stopStreams tb env s).state := by
  unfold stopStreams
  by_cases hp : s.enable_pipeline_ = true
  · simp only [hp, if_true]
    cases h0 : env.pipelineStop with
    | none => exact inv_of_same_started s _ h hp rfl
    | some e0 => exact h
  · simp only [hp]
    exact stopStreamsLoop_inv env _ s h

theorem imageSubscribedCallback_inv (tb : NodeTables) (env : Env) (s : NodeState)
    (k : stream_index_pair) (h : LifecycleInv s) :
    LifecycleInv (imageSubscribedCallback tb env s k).state := by
  unfold imageSubscribedCallback
  split
  · split
    · exact h
    · exact startStreams_inv tb env s h
  · split
    · exact h
    · exact startStream_inv env s k h

theorem imageUnsubscribedCallback_inv (tb : NodeTables) (env : Env) (s : NodeState)
    (k : stream_index_pair) (h : LifecycleInv s) :
    LifecycleInv (imageUnsubscribedCallback tb env s k).state := by
  unfold imageUnsubscribedCallback
  split
  · split
    · exact h
    · simp only
      split
      · exact stopStreams_inv tb env s h
      · exact h
  · split
    · exact h
    · simp only
      split
      · exact stopStream_inv env s k h
      · exact h

theorem applyOp_inv (tb : NodeTables) (env : Env) (s : NodeState) (op : LifecycleOp)
    (h : LifecycleInv s) : LifecycleInv (applyOp tb env s op).state := by
  cases op with
  | startStreams => exact startStreams_inv tb env s h
  | stopStreams => exact stopStreams_inv tb env s h
  | startStream k => exact startStream_inv env s k h
  | stopStream k => exact stopStream_inv env s k h
  | imageSubscribed k => exact imageSubscribedCallback_inv tb env s k h
  | imageUnsubscribed k => exact imageUnsubscribedCallback_inv tb env s k h
  | pointCloudXYZSubscribed => exact imageSubscribedCallback_inv tb env s DEPTH h
  | pointCloudXYZUnsubscribed => exact imageUnsubscribedCallback_inv tb env s DEPTH h
  | pointCloudXYZRGBSubscribed =>
    exact andThen_inv _ _ (imageSubscribedCallback_inv tb env s DEPTH h)
      (fun s1 h1 => imageSubscribedCallback_inv tb env s1 COLOR h1)
  | pointCloudXYZRGBUnsubscribed =>
    exact andThen_inv _ _ (imageUnsubscribedCallback_inv tb env s DEPTH h)
      (fun s1 h1 => imageUnsubscribedCallback_inv tb env s1 COLOR h1)

theorem runOps_inv (tb : NodeTables) (ops : List (LifecycleOp × Env)) (s : NodeState)
    (h : LifecycleInv s) : LifecycleInv (runOps tb s ops) := by
  induction ops generalizing s with
  | nil => exact h
  | cons oe rest ih =>
    obtain ⟨op, env⟩ := oe
    exact ih _ (applyOp_inv tb env s op h)

/-- C3: in every state reached from a state with no stream started, by any sequence of
`startStreams`, `stopStreams`, `startStream k`, `stopStream k` and the subscribe and unsubscribe
callbacks, each in an arbitrary environment (subscriber counts, hardware success or failure),
`stream_started_[k]` implies `enable_[k]` for every stream `k`. -/
theorem started_implies_enabled (tb : NodeTables) (s0 : NodeState)
    (ops : List (LifecycleOp × Env)) (h0 : ∀ k, s0.stream_started_ k = false)
    (k : stream_index_pair) (hk : (runOps tb s0 ops).stream_started_ k = true) :
    (runOps tb s0 ops).enable_ k = true := by
  have hinv : LifecycleInv s0 := by
    intro j hj
    rw [h0 j] at hj
    exact absurd hj (by simp)
  exact (runOps_inv tb ops s0 hinv k hk).1

/-- A witness of C3: in independent mode, subscribing to the depth image starts DEPTH, which is
enabled. -/
theorem started_implies_enabled_witness :
    (∀ k, independentIdle.stream_started_ k = false) ∧
    (runOps tablesDepthIrColor independentIdle
      [(LifecycleOp.imageSubscribed DEPTH, envAllSubscribed)]).stream_started_ DEPTH = true ∧
    (runOps tablesDepthIrColor independentIdle
      [(LifecycleOp.imageSubscribed DEPTH, envAllSubscribed)]).enable_ DEPTH = true :=
  ⟨fun _ => rfl, by decide,
    started_implies_enabled tablesDepthIrColor independentIdle
      [(LifecycleOp.imageSubscribed DEPTH, envAllSubscribed)] (fun _ => rfl) DEPTH (by decide)⟩

/-! ## Point-cloud demand -/

/-- C4, the claim as stated fails: in independent mode with DEPTH and COLOR enabled and not
started, no subscriber on the DEPTH and COLOR image outputs, one subscriber on the
colour-registered cloud and working hardware, `pointCloudXYZRGBSubscribedCallback` makes no
hardware call and leaves DEPTH and COLOR not started: `startStream` returns at its
`has_subscriber` test, which reads the image publisher only. -/
theorem pointCloudXYZRGBSubscribed_starts_nothing :
    independentIdle.enable_pipeline_ = false ∧
    independentIdle.enable_ DEPTH = true ∧ independentIdle.enable_ COLOR = true ∧
    envOnlyColorCloudSubscriber.depth_registered_cloud_subscribers = 1 ∧
    envOnlyColorCloudSubscriber.sensorStartStream DEPTH = none ∧
    envOnlyColorCloudSubscriber.sensorStartStream COLOR = none ∧
    (pointCloudXYZRGBSubscribedCallback tablesDepthIrColor envOnlyColorCloudSubscriber
      independentIdle).calls = [] ∧
    (pointCloudXYZRGBSubscribedCallback tablesDepthIrColor envOnlyColorCloudSubscriber
      independentIdle).state.stream_started_ DEPTH = false ∧
    (pointCloudXYZRGBSubscribedCallback tablesDepthIrColor envOnlyColorCloudSubscriber
      independentIdle).state.stream_started_ COLOR = false := by
  decide

/-- C4, amended: in independent mode with DEPTH and COLOR enabled and not started and hardware
starts that succeed, `pointCloudXYZRGBSubscribedCallback` returns normally and leaves started
exactly those of DEPTH and COLOR whose image output has a subscriber, with one hardware start
for each of them, DEPTH first. -/
theorem pointCloudXYZRGBSubscribed_starts_subscribed (tb : NodeTables) (env : Env)
    (s : NodeState) (hp : s.enable_pipeline_ = false)
    (heD : s.enable_ DEPTH = true) (heC : s.enable_ COLOR = true)
    (hsD : s.stream_started_ DEPTH = false) (hsC : s.stream_started_ COLOR = false)
    (hwD : env.sensorStartStream DEPTH = none) (hwC : env.sensorStartStream COLOR = none) :
    (pointCloudXYZRGBSubscribedCallback tb env s).thrown = none ∧
    (pointCloudXYZRGBSubscribedCallback tb env s).state.stream_started_ DEPTH =
      decide (env.numSubscribers DEPTH > 0) ∧
    (pointCloudXYZRGBSubscribedCallback tb env s).state.stream_started_ COLOR =
      decide (env.numSubscribers COLOR > 0) ∧
    (pointCloudXYZRGBSubscribedCallback tb env s).calls =
      (if env.numSubscribers DEPTH > 0 then [HwCall.sensorStart DEPTH] else []) ++
      (if env.numSubscribers COLOR > 0 then [HwCall.sensorStart COLOR] else []) := by
  have hD : imageSubscribedCallback tb env s DEPTH = startStream env s DEPTH := by
    simp [imageSubscribedCallback, hp, hsD]
  have hC : ∀ s1 : NodeState, s1.enable_pipeline_ = false → s1.stream_started_ COLOR = false →
      imageSubscribedCallback tb env s1 COLOR = startStream env s1 COLOR := by
    intro s1 h1 h2
    simp [imageSubscribedCallback, h1, h2]
  unfold pointCloudXYZRGBSubscribedCallback
  rw [hD]
  by_cases hnD : env.numSubscribers DEPTH = 0
  · rw [startStream_skip env s DEPTH (Or.inr (Or.inr (Or.inr hnD)))]
    rw [andThen_of_not_thrown _ _ rfl]
    simp only [Outcome.skip]
    rw [hC s hp hsC]
    by_cases hnC : env.numSubscribers COLOR = 0
    · rw [startStream_skip env s COLOR (Or.inr (Or.inr (Or.inr hnC)))]
      simp [Outcome.skip, hnD, hnC, hsD, hsC]
    · rw [startStream_ok env s COLOR hp heC hsC (Nat.pos_of_ne_zero hnC) hwC]
      simp [hnD, Nat.pos_of_ne_zero hnC, hsD, Function.update]
  · rw [startStream_ok env s DEPTH hp heD hsD (Nat.pos_of_ne_zero hnD) hwD]
    rw [andThen_of_not_thrown _ _ rfl]
    simp only
    have hsC1 : (Function.update s.stream_started_ DEPTH true) COLOR = false := by
      simp [Function.update, hsC]
    rw [hC { s with stream_started_ := Function.update s.stream_started_ DEPTH true } hp hsC1]
    by_cases hnC : env.numSubscribers COLOR = 0
    · rw [startStream_skip env
        { s with stream_started_ := Function.update s.stream_started_ DEPTH true } COLOR
        (Or.inr (Or.inr (Or.inr hnC)))]
      simp [Outcome.skip, hnC, Nat.pos_of_ne_zero hnD, hsC, Function.update]
    · rw [startStream_ok env
        { s with stream_started_ := Function.update s.stream_started_ DEPTH true } COLOR
        hp heC hsC1 (Nat.pos_of_ne_zero hnC) hwC]
      simp [Nat.pos_of_ne_zero hnD, Nat.pos_of_ne_zero hnC, Function.update]

/-- A witness of the amended C4: with a subscriber on both image outputs both streams are
started. -/
theorem pointCloudXYZRGBSubscribed_starts_subscribed_witness :
    (pointCloudXYZRGBSubscribedCallback tablesDepthIrColor envAllSubscribed
      independentIdle).thrown = none ∧
    (pointCloudXYZRGBSubscribedCallback tablesDepthIrColor envAllSubscribed
      independentIdle).state.stream_started_ DEPTH = true ∧
    (pointCloudXYZRGBSubscribedCallback tablesDepthIrColor envAllSubscribed
      independentIdle).state.stream_started_ COLOR = true ∧
    (pointCloudXYZRGBSubscribedCallback tablesDepthIrColor envAllSubscribed
      independentIdle).calls = [HwCall.sensorStart DEPTH, HwCall.sensorStart COLOR] :=
  pointCloudXYZRGBSubscribed_starts_subscribed tablesDepthIrColor envAllSubscribed
    independentIdle rfl rfl rfl rfl rfl rfl rfl

/-- In independent mode `imageUnsubscribedCallback i` keeps the mode, keeps every started
stream other than `i` started, keeps `i` started when its image output has a subscriber, and
its only possible hardware call is the stop of `i` when that output has no subscriber. -/
theorem imageUnsubscribedCallback_independent (tb : NodeTables) (env : Env) (s : NodeState)
    (i : stream_index_pair) (hp : s.enable_pipeline_ = false) :
    (imageUnsubscribedCallback tb env s i).state.enable_pipeline_ = false ∧
    (∀ j, s.stream_started_ j = true → (j ≠ i ∨ env.numSubscribers j > 0) →
      (imageUnsubscribedCallback tb env s i).state.stream_started_ j = true) ∧
    (∀ c ∈ (imageUnsubscribedCallback tb env s i).calls,
      c = HwCall.sensorStop i ∧ env.numSubscribers i = 0) := by
  by_cases hs : s.stream_started_ i = true
  swap
  · have h : imageUnsubscribedCallback tb env s i = Outcome.skip s := by
      simp [imageUnsubscribedCallback, hp, hs]
    rw [h]
    exact ⟨hp, fun j hj _ => hj, by simp [Outcome.skip]⟩
  by_cases hn : env.numSubscribers i = 0
  swap
  · have h : imageUnsubscribedCallback tb env s i = Outcome.skip s := by
      simp [imageUnsubscribedCallback, hp, hs, hn]
    rw [h]
    exact ⟨hp, fun j hj _ => hj, by simp [Outcome.skip]⟩
  have h : imageUnsubscribedCallback tb env s i = stopStream env s i := by
    simp [imageUnsubscribedCallback, hp, hs, hn]
  rw [h]
  cases hw : env.sensorStopStream i with
  | some e =>
    rw [stopStream_failed env s i e hp hs hw]
    refine ⟨hp, fun j hj _ => hj, ?_⟩
    intro c hc
    simp at hc
    exact ⟨hc, hn⟩
  | none =>
    rw [stopStream_ok env s i hp hs hw]
    refine ⟨hp, ?_, ?_⟩
    · intro j hj hor
      rcases hor with hji | hsub
      · simpa [Function.update, hji] using hj
      · have hji : j ≠ i := by
          intro hji
          rw [hji, hn] at hsub
          exact absurd hsub (by simp)
        simpa [Function.update, hji] using hj
    · intro c hc
      simp at hc
      exact ⟨hc, hn⟩

/-- C5, the claim as stated fails: in independent mode with DEPTH and COLOR started, no depth
image subscriber, but one subscriber on the depth cloud and one left on the colour-registered
cloud, `pointCloudXYZRGBUnsubscribedCallback` stops the DEPTH sensor:
`imageUnsubscribedCallback` reads the image publisher's subscriber count only. -/
theorem pointCloudXYZRGBUnsubscribed_stops_despite_cloud_subscribers :
    independentDepthColorStarted.enable_pipeline_ = false ∧
    independentDepthColorStarted.stream_started_ DEPTH = true ∧
    envCloudSubscribersRemain.depth_cloud_subscribers = 1 ∧
    envCloudSubscribersRemain.depth_registered_cloud_subscribers = 1 ∧
    (pointCloudXYZRGBUnsubscribedCallback tablesDepthIrColor envCloudSubscribersRemain
      independentDepthColorStarted).calls = [HwCall.sensorStop DEPTH] ∧
    (pointCloudXYZRGBUnsubscribedCallback tablesDepthIrColor envCloudSubscribersRemain
      independentDepthColorStarted).state.stream_started_ DEPTH = false := by
  decide

/-- C5, amended: in independent mode `pointCloudXYZRGBUnsubscribedCallback` stops a started
stream only when the image output of that stream has no subscriber: a started stream whose
image output still has a subscriber stays started and no hardware stop is made on it, and every
hardware call of the callback is the stop of DEPTH or COLOR with no image subscriber. -/
theorem pointCloudXYZRGBUnsubscribed_keeps_image_subscribed (tb : NodeTables) (env : Env)
    (s : NodeState) (k : stream_index_pair) (hp : s.enable_pipeline_ = false)
    (hs : s.stream_started_ k = true) (hsub : env.numSubscribers k > 0) :
    (pointCloudXYZRGBUnsubscribedCallback tb env s).state.stream_started_ k = true ∧
    HwCall.sensorStop k ∉ (pointCloudXYZRGBUnsubscribedCallback tb env s).calls ∧
    (∀ c ∈ (pointCloudXYZRGBUnsubscribedCallback tb env s).calls,
      (c = HwCall.sensorStop DEPTH ∧ env.numSubscribers DEPTH = 0) ∨
      (c = HwCall.sensorStop COLOR ∧ env.numSubscribers COLOR = 0)) := by
  obtain ⟨d1, d2, d3⟩ := imageUnsubscribedCallback_independent tb env s DEPTH hp
  obtain ⟨_, c2, c3⟩ := imageUnsubscribedCallback_independent tb env
    (imageUnsubscribedCallback tb env s DEPTH).state COLOR d1
  have hcalls : ∀ c ∈ (pointCloudXYZRGBUnsubscribedCallback tb env s).calls,
      (c = HwCall.sensorStop DEPTH ∧ env.numSubscribers DEPTH = 0) ∨
      (c = HwCall.sensorStop COLOR ∧ env.numSubscribers COLOR = 0) := by
    intro c hc
    unfold pointCloudXYZRGBUnsubscribedCallback Outcome.andThen at hc
    cases ht : (imageUnsubscribedCallback tb env s DEPTH).thrown with
    | some e =>
      simp only [ht] at hc
      exact Or.inl (d3 c hc)
    | none =>
      simp only [ht] at hc
      rcases List.mem_append.mp hc with h1 | h2
      · exact Or.inl (d3 c h1)
      · exact Or.inr (c3 c h2)
  refine ⟨?_, ?_, hcalls⟩
  · unfold pointCloudXYZRGBUnsubscribedCallback Outcome.andThen
    cases ht : (imageUnsubscribedCallback tb env s DEPTH).thrown with
    | some e => exact d2 k hs (Or.inr hsub)
    | none => exact c2 k (d2 k hs (Or.inr hsub)) (Or.inr hsub)
  · intro hmem
    rcases hcalls _ hmem with ⟨h1, h2⟩ | ⟨h1, h2⟩
    · cases h1
      rw [h2] at hsub
      exact absurd hsub (by simp)
    · cases h1
      rw [h2] at hsub
      exact absurd hsub (by simp)

/-- A witness of the amended C5: COLOR is started and its image output has a subscriber; it
stays started while DEPTH, without an image subscriber, is stopped. -/
theorem pointCloudXYZRGBUnsubscribed_keeps_image_subscribed_witness :
    (pointCloudXYZRGBUnsubscribedCallback tablesDepthIrColor envCloudSubscribersRemain
      independentDepthColorStarted).state.stream_started_ COLOR = true ∧
    HwCall.sensorStop COLOR ∉ (pointCloudXYZRGBUnsubscribedCallback tablesDepthIrColor
      envCloudSubscribersRemain independentDepthColorStarted).calls :=
  have h := pointCloudXYZRGBUnsubscribed_keeps_image_subscribed tablesDepthIrColor
    envCloudSubscribersRemain independentDepthColorStarted COLOR rfl rfl (by decide)
  ⟨h.1, h.2.1⟩

/-! ## Calling `startStreams` twice -/

theorem startStreamsLoop_cons (env : Env) (s : NodeState) (k : stream_index_pair)
    (rest : List stream_index_pair) :
    startStreamsLoop env s (k :: rest) =
      Outcome.andThen (startStream env s k) (fun s1 => startStreamsLoop env s1 rest) := by
  by_cases he : s.enable_ k = true
  · by_cases hs : s.stream_started_ k = true
    · simp [startStreamsLoop, he, hs, startStream_skip env s k (Or.inr (Or.inr (Or.inl hs)))]
    · simp [startStreamsLoop, he, hs]
  · have he2 : s.enable_ k = false := by simpa using he
    simp [startStreamsLoop, he2, startStream_skip env s k (Or.inr (Or.inl he2))]

/-- What one `startStream` call can change: nothing but `stream_started_`, which only grows,
and it never throws. A stream it leaves enabled and not started in independent mode has no
subscriber or a failing hardware start. -/
theorem startStream_frame (env : Env) (s : NodeState) (k : stream_index_pair) :
    (startStream env s k).thrown = none ∧
    (startStream env s k).state.enable_pipeline_ = s.enable_pipeline_ ∧
    (startStream env s k).state.enable_ = s.enable_ ∧
    (startStream env s k).state.pipeline_started_ = s.pipeline_started_ ∧
    (∀ j, s.stream_started_ j = true → (startStream env s k).state.stream_started_ j = true) ∧
    (s.enable_pipeline_ = false → s.enable_ k = true →
      (startStream env s k).state.stream_started_ k = false →
      env.numSubscribers k = 0 ∨ env.sensorStartStream k ≠ none) := by
  by_cases hp : s.enable_pipeline_ = true
  · rw [startStream_skip env s k (Or.inl hp)]
    simp [Outcome.skip, hp]
  by_cases he : s.enable_ k = true
  swap
  · rw [startStream_skip env s k (Or.inr (Or.inl (by simpa using he)))]
    simp [Outcome.skip, he]
  by_cases hs : s.stream_started_ k = true
  · rw [startStream_skip env s k (Or.inr (Or.inr (Or.inl hs)))]
    simp [Outcome.skip, hs]
  by_cases hn : env.numSubscribers k = 0
  · rw [startStream_skip env s k (Or.inr (Or.inr (Or.inr hn)))]
    simp [Outcome.skip, hn]
  have hp2 : s.enable_pipeline_ = false := by simpa using hp
  have hs2 : s.stream_started_ k = false := by simpa using hs
  cases hw : env.sensorStartStream k with
  | some e =>
    rw [startStream_failed env s k e hp2 he hs2 (Nat.pos_of_ne_zero hn) hw]
    simp
  | none =>
    rw [startStream_ok env s k hp2 he hs2 (Nat.pos_of_ne_zero hn) hw]
    refine ⟨rfl, rfl, rfl, rfl, ?_, ?_⟩
    · intro j hj
      by_cases hjk : j = k
      · subst hjk
        simp
      · simpa [Function.update, hjk] using hj
    · intro _ _ h
      simp at h

theorem startStreamsLoop_frame (env : Env) (l : List stream_index_pair) (s : NodeState) :
    (startStreamsLoop env s l).thrown = none ∧
    (startStreamsLoop env s l).state.enable_pipeline_ = s.enable_pipeline_ ∧
    (startStreamsLoop env s l).state.enable_ = s.enable_ ∧
    (startStreamsLoop env s l).state.pipeline_started_ = s.pipeline_started_ ∧
    (∀ j, s.stream_started_ j = true →
      (startStreamsLoop env s l).state.stream_started_ j = true) := by
  induction l generalizing s with
  | nil => simp [startStreamsLoop, Outcome.skip]
  | cons k rest ih =>
    obtain ⟨h1, h2, h3, h4, h5, _⟩ := startStream_frame env s k
    obtain ⟨i1, i2, i3, i4, i5⟩ := ih (startStream env s k).state
    rw [startStreamsLoop_cons, andThen_of_not_thrown _ _ h1]
    refine ⟨i1, ?_, ?_, ?_, ?_⟩
    · simp only [i2, h2]
    · simp only [i3, h3]
    · simp only [i4, h4]
    · intro j hj
      exact i5 j (h5 j hj)

/-- After the loop of `startStreams`, every stream of the list that is enabled and still not
started has no subscriber or a failing hardware start. -/
theorem startStreamsLoop_settles (env : Env) (l : List stream_index_pair) (s : NodeState)
    (hp : s.enable_pipeline_ = false) :
    ∀ k ∈ l, (startStreamsLoop env s l).state.enable_ k = true →
      (startStreamsLoop env s l).state.stream_started_ k = false →
      env.numSubscribers k = 0 ∨ env.sensorStartStream k ≠ none := by
  induction l generalizing s with
  | nil => simp
  | cons k rest ih =>
    obtain ⟨h1, h2, h3, _, _, h6⟩ := startStream_frame env s k
    obtain ⟨_, _, i3, _, i5⟩ := startStreamsLoop_frame env rest (startStream env s k).state
    rw [startStreamsLoop_cons, andThen_of_not_thrown _ _ h1]
    intro j hj hen hst
    simp only at hen hst
    rcases List.mem_cons.mp hj with hjk | hjr
    · subst hjk
      have hen2 : s.enable_ j = true := by
        rw [i3, h3] at hen
        exact hen
      have hst2 : (startStream env s j).state.stream_started_ j = false := by
        by_contra hc
        have := i5 j (by simpa using hc)
        rw [this] at hst
        exact absurd hst (by simp)
      exact h6 hp hen2 hst2
    · exact ih (startStream env s k).state (by rw [h2]; exact hp) j hjr hen hst

/-- From a state in which every enabled, not started stream of the list has no subscriber or a
failing hardware start, the loop of `startStreams` changes nothing and only repeats failing
hardware starts. -/
theorem startStreamsLoop_of_settled (env : Env) (l : List stream_index_pair) (s : NodeState)
    (hp : s.enable_pipeline_ = false)
    (hset : ∀ k ∈ l, s.enable_ k = true → s.stream_started_ k = false →
      env.numSubscribers k = 0 ∨ env.sensorStartStream k ≠ none) :
    (startStreamsLoop env s l).state = s ∧
    ∀ c ∈ (startStreamsLoop env s l).calls,
      ∃ k, c = HwCall.sensorStart k ∧ env.sensorStartStream k ≠ none := by
  induction l with
  | nil => simp [startStreamsLoop, Outcome.skip]
  | cons k rest ih =>
    have ihr := ih (fun j hj => hset j (List.mem_cons_of_mem k hj))
    have hhead : (startStream env s k).state = s ∧
        ∀ c ∈ (startStream env s k).calls,
          ∃ j, c = HwCall.sensorStart j ∧ env.sensorStartStream j ≠ none := by
      by_cases he : s.enable_ k = true
      swap
      · rw [startStream_skip env s k (Or.inr (Or.inl (by simpa using he)))]
        simp [Outcome.skip]
      by_cases hs : s.stream_started_ k = true
      · rw [startStream_skip env s k (Or.inr (Or.inr (Or.inl hs)))]
        simp [Outcome.skip]
      have hs2 : s.stream_started_ k = false := by simpa using hs
      rcases hset k (List.mem_cons_self k rest) he hs2 with hn | hw
      · rw [startStream_skip env s k (Or.inr (Or.inr (Or.inr hn)))]
        simp [Outcome.skip]
      · by_cases hn : env.numSubscribers k = 0
        · rw [startStream_skip env s k (Or.inr (Or.inr (Or.inr hn)))]
          simp [Outcome.skip]
        · obtain ⟨e, he2⟩ := Option.ne_none_iff_exists'.mp hw
          rw [startStream_failed env s k e hp he hs2 (Nat.pos_of_ne_zero hn) he2]
          simp [he2]
    obtain ⟨h1, _⟩ := startStream_frame env s k
    rw [startStreamsLoop_cons, andThen_of_not_thrown _ _ h1, hhead.1]
    refine ⟨ihr.1, ?_⟩
    intro c hc
    rcases List.mem_append.mp hc with hc1 | hc2
    · exact hhead.2 c hc1
    · exact ihr.2 c hc2

theorem startStreamsLoop_twice (env : Env) (l : List stream_index_pair) (s : NodeState)
    (hp : s.enable_pipeline_ = false) :
    (startStreamsLoop env (startStreamsLoop env s l).state l).state =
      (startStreamsLoop env s l).state ∧
    ∀ c ∈ (startStreamsLoop env (startStreamsLoop env s l).state l).calls,
      ∃ k, c = HwCall.sensorStart k ∧ env.sensorStartStream k ≠ none := by
  obtain ⟨_, f2, _, _, _⟩ := startStreamsLoop_frame env l s
  have hp1 : (startStreamsLoop env s l).state.enable_pipeline_ = false := by
    rw [f2]
    exact hp
  exact startStreamsLoop_of_settled env l (startStreamsLoop env s l).state hp1
    (startStreamsLoop_settles env l s hp)

/-- In synchronized mode a second `startStreams` call in the same environment ends in the
state the first call left: the same attempts succeed or fail, `enable_[INFRA0] = false` is
repeated, and `pipeline_started_` is set again or left alone again. -/
theorem startStreams_twice_pipeline_state (tb : NodeTables) (env : Env) (s : NodeState)
    (hp : s.enable_pipeline_ = true) :
    (startStreams tb env (startStreams tb env s).state).state = (startStreams tb env s).state := by
  cases h0 : env.pipelineStart 0 with
  | none => simp [startStreams, hp, h0]
  | some e0 =>
    cases h1 : env.pipelineStart 1 with
    | none => simp [startStreams, hp, h0, h1]
    | some e1 => simp [startStreams, hp, h0, h1]

/-- C6, the claim as stated fails in its half about hardware calls: in synchronized mode with
working hardware the second of two `startStreams` calls in the same environment starts the
pipeline again, and in independent mode with sensors that refuse to start it tries every
sensor again. -/
theorem startStreams_twice_calls_hardware_again :
    (startStreams tablesDepthIrColor envAllSubscribed pipelineIdle).calls =
      [HwCall.pipelineStart [DEPTH, INFRA0, COLOR]] ∧
    (startStreams tablesDepthIrColor envAllSubscribed pipelineIdle).state.pipeline_started_
      = true ∧
    (startStreams tablesDepthIrColor envAllSubscribed
      (startStreams tablesDepthIrColor envAllSubscribed pipelineIdle).state).calls =
      [HwCall.pipelineStart [DEPTH, INFRA0, COLOR]] ∧
    (startStreams tablesDepthIrColor envAllSubscribed
      (startStreams tablesDepthIrColor envAllSubscribed pipelineIdle).state).calls ≠ [] ∧
    (startStreams tablesDepthIrColor envFirstPipelineStartFails
      (startStreams tablesDepthIrColor envFirstPipelineStartFails independentIdle).state).calls =
      [HwCall.sensorStart DEPTH, HwCall.sensorStart INFRA0, HwCall.sensorStart COLOR] ∧
    (startStreams tablesDepthIrColor envFirstPipelineStartFails
      (startStreams tablesDepthIrColor envFirstPipelineStartFails independentIdle).state).calls
      ≠ [] := by
  decide

/-- C6, amended: in either mode a second `startStreams` call in the same environment leaves
the lifecycle state equal to the state after the first call; in independent mode the only
hardware calls of the second call are starts of streams whose hardware start fails in that
environment, so that with working hardware it makes no hardware call at all. -/
theorem startStreams_twice_state_unchanged (tb : NodeTables) (env : Env) (s : NodeState) :
    (startStreams tb env (startStreams tb env s).state).state = (startStreams tb env s).state ∧
    (s.enable_pipeline_ = false →
      (∀ c ∈ (startStreams tb env (startStreams tb env s).state).calls,
        ∃ k, c = HwCall.sensorStart k ∧ env.sensorStartStream k ≠ none) ∧
      ((∀ k, env.sensorStartStream k = none) →
        (startStreams tb env (startStreams tb env s).state).calls = [])) := by
  by_cases hp : s.enable_pipeline_ = true
  · exact ⟨startStreams_twice_pipeline_state tb env s hp, fun h => by simp [hp] at h⟩
  · have hp0 : s.enable_pipeline_ = false := by simpa using hp
    have h1 : startStreams tb env s = startStreamsLoop env s tb.IMAGE_STREAMS := by
      simp [startStreams, hp0]
    obtain ⟨_, f2, _, _, _⟩ := startStreamsLoop_frame env tb.IMAGE_STREAMS s
    have hp1 : (startStreamsLoop env s tb.IMAGE_STREAMS).state.enable_pipeline_ = false := by
      rw [f2]
      exact hp0
    have h2 : startStreams tb env (startStreamsLoop env s tb.IMAGE_STREAMS).state =
        startStreamsLoop env (startStreamsLoop env s tb.IMAGE_STREAMS).state
          tb.IMAGE_STREAMS := by
      simp [startStreams, hp1]
    rw [h1, h2]
    have hmain := startStreamsLoop_twice env tb.IMAGE_STREAMS s hp0
    refine ⟨hmain.1, fun _ => ⟨hmain.2, ?_⟩⟩
    intro hall
    apply List.eq_nil_iff_forall_not_mem.mpr
    intro c hc
    obtain ⟨k, _, hk⟩ := hmain.2 c hc
    exact hk (hall k)

/-- A witness of the amended C6: with working hardware the second call changes nothing in
either mode, and in independent mode it makes no hardware call. -/
theorem startStreams_twice_state_unchanged_witness :
    independentIdle.enable_pipeline_ = false ∧
    (startStreams tablesDepthIrColor envAllSubscribed
      (startStreams tablesDepthIrColor envAllSubscribed independentIdle).state).state =
      (startStreams tablesDepthIrColor envAllSubscribed independentIdle).state ∧
    (startStreams tablesDepthIrColor envAllSubscribed
      (startStreams tablesDepthIrColor envAllSubscribed independentIdle).state).calls = [] ∧
    (startStreams tablesDepthIrColor envFirstPipelineStartFails
      (startStreams tablesDepthIrColor envFirstPipelineStartFails pipelineIdle).state).state =
      (startStreams tablesDepthIrColor envFirstPipelineStartFails pipelineIdle).state :=
  ⟨rfl,
    (startStreams_twice_state_unchanged tablesDepthIrColor envAllSubscribed independentIdle).1,
    ((startStreams_twice_state_unchanged tablesDepthIrColor envAllSubscribed
      independentIdle).2 rfl).2 (fun _ => rfl),
    (startStreams_twice_state_unchanged tablesDepthIrColor envFirstPipelineStartFails
      pipelineIdle).1⟩

/-! ## Synchronized mode: the retry of the pipeline start -/

/-- C7: in synchronized mode, when the first pipeline start throws an `ob::Error` and the
second succeeds, `startStreams` returns normally after exactly two start attempts, the first with
the configuration of the state it found and the second with the configuration after
`enable_[INFRA0] = false`, which does not contain INFRA0; afterwards `enable_[INFRA0]` is false
and `pipeline_started_` is true. -/
theorem startStreams_retry_without_infrared (tb : NodeTables) (env : Env) (s : NodeState)
    (e : ObError) (hp : s.enable_pipeline_ = true) (hir : s.enable_ INFRA0 = true)
    (h0 : env.pipelineStart 0 = some e) (h1 : env.pipelineStart 1 = none) :
    (startStreams tb env s).thrown = none ∧
    (startStreams tb env s).calls =
      [HwCall.pipelineStart (tb.IMAGE_STREAMS.filter (fun k => s.enable_ k)),
       HwCall.pipelineStart
        (tb.IMAGE_STREAMS.filter (fun k => s.enable_ k && decide (k ≠ INFRA0)))] ∧
    (INFRA0 ∈ tb.IMAGE_STREAMS → INFRA0 ∈ tb.IMAGE_STREAMS.filter (fun k => s.enable_ k)) ∧
    INFRA0 ∉ tb.IMAGE_STREAMS.filter (fun k => s.enable_ k && decide (k ≠ INFRA0)) ∧
    (startStreams tb env s).state.enable_ INFRA0 = false ∧
    (∀ k, k ≠ INFRA0 → (startStreams tb env s).state.enable_ k = s.enable_ k) ∧
    (startStreams tb env s).state.pipeline_started_ = true := by
  have hcfg : (tb.IMAGE_STREAMS.filter
      (fun k => (Function.update s.enable_ INFRA0 false) k)) =
      tb.IMAGE_STREAMS.filter (fun k => s.enable_ k && decide (k ≠ INFRA0)) := by
    apply List.filter_congr
    intro k _
    by_cases hk : k = INFRA0
    · subst hk
      simp
    · simp [Function.update, hk]
  refine ⟨?_, ?_, ?_, ?_, ?_, ?_, ?_⟩
  · simp [startStreams, hp, h0, h1]
  · simp only [startStreams, hp, h0, h1, setupPipelineConfig, if_true, hcfg]
  · intro hmem
    exact List.mem_filter.mpr ⟨hmem, hir⟩
  · simp [List.mem_filter]
  · simp [startStreams, hp, h0, h1]
  · intro k hk
    simp [startStreams, hp, h0, h1, Function.update, hk]
  · simp [startStreams, hp, h0, h1]

/-- A witness of C7: every stream enabled, the first start fails and the second succeeds. -/
theorem startStreams_retry_without_infrared_witness :
    pipelineIdle.enable_pipeline_ = true ∧ pipelineIdle.enable_ INFRA0 = true ∧
    (startStreams tablesDepthIrColor envFirstPipelineStartFails pipelineIdle).thrown = none ∧
    (startStreams tablesDepthIrColor envFirstPipelineStartFails pipelineIdle).calls =
      [HwCall.pipelineStart [DEPTH, INFRA0, COLOR], HwCall.pipelineStart [DEPTH, COLOR]] ∧
    (startStreams tablesDepthIrColor envFirstPipelineStartFails
      pipelineIdle).state.enable_ INFRA0 = false ∧
    (startStreams tablesDepthIrColor envFirstPipelineStartFails
      pipelineIdle).state.pipeline_started_ = true :=
  have h := startStreams_retry_without_infrared tablesDepthIrColor envFirstPipelineStartFails
    pipelineIdle ⟨1⟩ rfl rfl rfl rfl
  ⟨rfl, rfl, h.1, h.2.1.trans (by decide), h.2.2.2.2.1, h.2.2.2.2.2.2⟩

/-- C8, the claim as stated fails: on a pipeline that is already started, when the first
pipeline start and the retry both throw, `startStreams` leaves with the error of the retry
after two attempts, and `pipeline_started_` is true afterwards, as it was before. -/
theorem startStreams_second_failure_keeps_started_flag :
    pipelineRunning.enable_pipeline_ = true ∧
    envPipelineStartFails.pipelineStart 0 = some ⟨1⟩ ∧
    envPipelineStartFails.pipelineStart 1 = some ⟨2⟩ ∧
    (startStreams tablesDepthIrColor envPipelineStartFails pipelineRunning).thrown = some ⟨2⟩ ∧
    (startStreams tablesDepthIrColor envPipelineStartFails pipelineRunning).calls.length = 2 ∧
    (startStreams tablesDepthIrColor envPipelineStartFails
      pipelineRunning).state.pipeline_started_ = true ∧
    (startStreams tablesDepthIrColor envPipelineStartFails
      pipelineRunning).state.pipeline_started_ ≠ false := by
  decide

/-- C8, amended: in synchronized mode, when the first pipeline start and the retry both throw,
`startStreams` leaves with the error of the retry, has made exactly two hardware calls, both
pipeline start attempts, and `pipeline_started_` is what it was before the call (so false on a
pipeline that was not started). -/
theorem startStreams_second_failure_propagates (tb : NodeTables) (env : Env) (s : NodeState)
    (e0 e1 : ObError) (hp : s.enable_pipeline_ = true)
    (h0 : env.pipelineStart 0 = some e0) (h1 : env.pipelineStart 1 = some e1) :
    (startStreams tb env s).thrown = some e1 ∧
    (startStreams tb env s).calls.length = 2 ∧
    (∀ c ∈ (startStreams tb env s).calls, ∃ cfg, c = HwCall.pipelineStart cfg) ∧
    (startStreams tb env s).state.pipeline_started_ = s.pipeline_started_ := by
  refine ⟨?_, ?_, ?_, ?_⟩
  · simp [startStreams, hp, h0, h1]
  · simp [startStreams, hp, h0, h1]
  · simp [startStreams, hp, h0, h1]
  · simp [startStreams, hp, h0, h1]

/-- A witness of the amended C8: both pipeline starts throw on a pipeline that is not started;
the error of the second one comes out and `pipeline_started_` stays false. -/
theorem startStreams_second_failure_propagates_witness :
    pipelineIdle.enable_pipeline_ = true ∧ pipelineIdle.pipeline_started_ = false ∧
    (startStreams tablesDepthIrColor envPipelineStartFails pipelineIdle).thrown = some ⟨2⟩ ∧
    (startStreams tablesDepthIrColor envPipelineStartFails pipelineIdle).calls.length = 2 ∧
    (startStreams tablesDepthIrColor envPipelineStartFails
      pipelineIdle).state.pipeline_started_ = false :=
  have h := startStreams_second_failure_propagates tablesDepthIrColor envPipelineStartFails
    pipelineIdle ⟨1⟩ ⟨2⟩ rfl rfl rfl
  ⟨rfl, rfl, h.1, h.2.1, h.2.2.2⟩

/-! ## Synchronized mode: per-stream start and stop, and the unsubscribe callback -/

/-- C9: while `enable_pipeline_` is set, `startStream k` and `stopStream k` return at once for
every stream `k`: the state is the one they found, no hardware call is made and nothing is
thrown. -/
theorem startStream_stopStream_rejected_in_pipeline_mode (env : Env) (s : NodeState)
    (k : stream_index_pair) (hp : s.enable_pipeline_ = true) :
    (startStream env s k).state = s ∧ (startStream env s k).calls = [] ∧
    (startStream env s k).thrown = none ∧
    (stopStream env s k).state = s ∧ (stopStream env s k).calls = [] ∧
    (stopStream env s k).thrown = none := by
  rw [startStream_skip env s k (Or.inl hp), stopStream_skip env s k (Or.inl hp)]
  simp [Outcome.skip]

/-- A witness of C9: synchronized mode with every stream enabled and subscribed. -/
theorem startStream_stopStream_rejected_in_pipeline_mode_witness :
    pipelineIdle.enable_pipeline_ = true ∧
    (startStream envAllSubscribed pipelineIdle DEPTH).state = pipelineIdle ∧
    (startStream envAllSubscribed pipelineIdle DEPTH).calls = [] ∧
    (startStream envAllSubscribed pipelineIdle DEPTH).thrown = none ∧
    (stopStream envAllSubscribed pipelineIdle DEPTH).state = pipelineIdle ∧
    (stopStream envAllSubscribed pipelineIdle DEPTH).calls = [] ∧
    (stopStream envAllSubscribed pipelineIdle DEPTH).thrown = none :=
  ⟨rfl, startStream_stopStream_rejected_in_pipeline_mode envAllSubscribed pipelineIdle DEPTH rfl⟩

theorem all_stream_no_subscriber_eq (env : Env) (l : List stream_index_pair) (acc : Bool) :
    l.foldl (fun acc item => if env.numSubscribers item > 0 then false else acc) acc =
      (acc && l.all (fun item => decide (env.numSubscribers item = 0))) := by
  induction l generalizing acc with
  | nil => simp
  | cons k rest ih =>
    rw [List.foldl_cons, ih]
    by_cases hk : env.numSubscribers k = 0
    · simp [hk]
    · have : env.numSubscribers k > 0 := Nat.pos_of_ne_zero hk
      simp [hk, this]

/-- C10, the claim as stated fails: in synchronized mode with the pipeline started, when no
image output has a subscriber but the depth cloud and the colour-registered cloud still have
one each, `imageUnsubscribedCallback` stops the pipeline: the loop over `image_publishers_`
does not see the point-cloud publishers. -/
theorem imageUnsubscribedCallback_stops_despite_cloud_subscribers :
    pipelineRunning.enable_pipeline_ = true ∧
    pipelineRunning.pipeline_started_ = true ∧
    envOnlyCloudSubscribers.depth_cloud_subscribers = 1 ∧
    envOnlyCloudSubscribers.depth_registered_cloud_subscribers = 1 ∧
    (imageUnsubscribedCallback tablesDepthIrColor envOnlyCloudSubscribers
      pipelineRunning DEPTH).calls = [HwCall.pipelineStop] ∧
    (imageUnsubscribedCallback tablesDepthIrColor envOnlyCloudSubscribers
      pipelineRunning DEPTH).state.pipeline_started_ = false := by
  decide

/-- C10, amended: in synchronized mode, when the image output of at least one stream of
`image_publishers_` still has a subscriber, `imageUnsubscribedCallback` for any stream returns
without a hardware call and leaves the state, `pipeline_started_` included, as it found it. -/
theorem imageUnsubscribedCallback_keeps_pipeline (tb : NodeTables) (env : Env) (s : NodeState)
    (k item : stream_index_pair) (hp : s.enable_pipeline_ = true)
    (hitem : item ∈ tb.image_publishers_) (hsub : env.numSubscribers item > 0) :
    (imageUnsubscribedCallback tb env s k).state.pipeline_started_ = s.pipeline_started_ ∧
    (imageUnsubscribedCallback tb env s k).state = s ∧
    (imageUnsubscribedCallback tb env s k).calls = [] ∧
    (imageUnsubscribedCallback tb env s k).thrown = none := by
  have hall : (tb.image_publishers_.all
      (fun item => decide (env.numSubscribers item = 0))) = false := by
    rw [List.all_eq_false]
    exact ⟨item, hitem, by simpa using Nat.ne_of_gt hsub⟩
  have hskip : imageUnsubscribedCallback tb env s k = Outcome.skip s := by
    unfold imageUnsubscribedCallback
    simp only [hp, if_true, all_stream_no_subscriber_eq, hall, Bool.true_and]
    by_cases hps : s.pipeline_started_ = true
    · simp [hps]
    · simp [hps]
  rw [hskip]
  simp [Outcome.skip]

/-- A witness of the amended C10: the pipeline runs, the colour image still has a subscriber,
and the depth image is unsubscribed. -/
theorem imageUnsubscribedCallback_keeps_pipeline_witness :
    (imageUnsubscribedCallback tablesDepthIrColor envCloudSubscribersRemain
      pipelineRunning DEPTH).state.pipeline_started_ = true ∧
    (imageUnsubscribedCallback tablesDepthIrColor envCloudSubscribersRemain
      pipelineRunning DEPTH).calls = [] :=
  have h := imageUnsubscribedCallback_keeps_pipeline tablesDepthIrColor
    envCloudSubscribersRemain pipelineRunning DEPTH COLOR rfl (by decide) (by decide)
  ⟨h.1, h.2.2.1⟩

/-! ## Selection of the calibration entry -/

theorem paramMatches_iff (res : Resolution) (param : OBCameraParam) :
    paramMatches res param = true ↔ MatchesResolution res param := by
  simp [paramMatches, MatchesResolution]

theorem getCameraParam_eq_none_iff (res : Resolution) (l : List OBCameraParam) :
    getCameraParam res l = none ↔ ∀ p ∈ l, ¬ MatchesResolution res p := by
  induction l with
  | nil => simp [getCameraParam]
  | cons q rest ih =>
    by_cases hq : paramMatches res q = true
    · have hq2 := (paramMatches_iff res q).mp hq
      simp [getCameraParam, hq, hq2]
    · have hq2 : ¬ MatchesResolution res q := fun h => hq ((paramMatches_iff res q).mpr h)
      simp [getCameraParam, hq, hq2, ih]

theorem getCameraParam_eq_some_iff (res : Resolution) (l : List OBCameraParam)
    (p : OBCameraParam) :
    getCameraParam res l = some p ↔
      ∃ pre post, l = pre ++ p :: post ∧ MatchesResolution res p ∧
        ∀ q ∈ pre, ¬ MatchesResolution res q := by
  induction l with
  | nil => simp [getCameraParam]
  | cons q rest ih =>
    by_cases hq : paramMatches res q = true
    · have hq2 := (paramMatches_iff res q).mp hq
      have hstep : getCameraParam res (q :: rest) = some q := by
        simp [getCameraParam, hq]
      rw [hstep]
      constructor
      · intro h
        have hqp : q = p := Option.some.inj h
        subst hqp
        exact ⟨[], rest, rfl, hq2, by simp⟩
      · rintro ⟨pre, post, hl, _, hpre⟩
        cases pre with
        | nil =>
          simp only [List.nil_append, List.cons.injEq] at hl
          rw [hl.1]
        | cons a pre2 =>
          simp only [List.cons_append, List.cons.injEq] at hl
          exact absurd hq2 (hl.1 ▸ hpre a (List.mem_cons_self a pre2))
    · have hq2 : ¬ MatchesResolution res q := fun h => hq ((paramMatches_iff res q).mpr h)
      have hstep : getCameraParam res (q :: rest) = getCameraParam res rest := by
        simp [getCameraParam, hq]
      rw [hstep, ih]
      constructor
      · rintro ⟨pre, post, hl, hp, hpre⟩
        refine ⟨q :: pre, post, by simp [hl], hp, ?_⟩
        intro a ha
        rcases List.mem_cons.mp ha with h | h
        · rw [h]
          exact hq2
        · exact hpre a h
      · rintro ⟨pre, post, hl, hp, hpre⟩
        cases pre with
        | nil =>
          simp only [List.nil_append, List.cons.injEq] at hl
          exact absurd hp (hl.1 ▸ hq2)
        | cons a pre2 =>
          simp only [List.cons_append, List.cons.injEq] at hl
          exact ⟨pre2, post, hl.2, hp, fun b hb => hpre b (List.mem_cons_of_mem a hb)⟩

theorem getCameraParamIndexFrom_eq (res : Resolution) (pre post : List OBCameraParam)
    (p : OBCameraParam) (i : Nat) (hp : MatchesResolution res p)
    (hpre : ∀ q ∈ pre, ¬ MatchesResolution res q) :
    getCameraParamIndexFrom res (pre ++ p :: post) i = ((i + pre.length : Nat) : Int) := by
  induction pre generalizing i with
  | nil =>
    have := (paramMatches_iff res p).mpr hp
    simp [getCameraParamIndexFrom, this]
  | cons a pre2 ih =>
    have ha : ¬ paramMatches res a = true :=
      fun h => hpre a (List.mem_cons_self a pre2) ((paramMatches_iff res a).mp h)
    have hrest := ih (i + 1) (fun b hb => hpre b (List.mem_cons_of_mem a hb))
    have hstep : getCameraParamIndexFrom res (a :: (pre2 ++ p :: post)) i =
        getCameraParamIndexFrom res (pre2 ++ p :: post) (i + 1) := by
      simp [getCameraParamIndexFrom, ha]
    rw [List.cons_append, hstep, hrest, List.length_cons]
    congr 1
    omega

theorem getCameraParamIndexFrom_none (res : Resolution) (l : List OBCameraParam) (i : Nat)
    (h : ∀ q ∈ l, ¬ MatchesResolution res q) :
    getCameraParamIndexFrom res l i = -1 := by
  induction l generalizing i with
  | nil => rfl
  | cons a rest ih =>
    have ha : ¬ paramMatches res a = true :=
      fun hm => h a (List.mem_cons_self a rest) ((paramMatches_iff res a).mp hm)
    have hstep : getCameraParamIndexFrom res (a :: rest) i =
        getCameraParamIndexFrom res rest (i + 1) := by
      simp [getCameraParamIndexFrom, ha]
    rw [hstep]
    exact ih (i + 1) (fun b hb => h b (List.mem_cons_of_mem a hb))

/-- C11: for every calibration list and configured resolutions, `getCameraParam` returns the
first entry (no entry before it in the list qualifies) for which
`depthIntrinsic.width * height_[DEPTH] == depthIntrinsic.height * width_[DEPTH]` and the same
equation for the colour intrinsic and the colour resolution hold; it returns no value exactly
when no entry satisfies both equations; and `getCameraParamIndex` returns the position of that
entry, or -1. -/
theorem getCameraParam_first_match (res : Resolution) (l : List OBCameraParam) :
    (∀ p, getCameraParam res l = some p ↔
      ∃ pre post, l = pre ++ p :: post ∧
        (p.depthIntrinsic.width * res.height_ DEPTH =
            p.depthIntrinsic.height * res.width_ DEPTH ∧
          p.rgbIntrinsic.width * res.height_ COLOR =
            p.rgbIntrinsic.height * res.width_ COLOR) ∧
        ∀ q ∈ pre, ¬ (q.depthIntrinsic.width * res.height_ DEPTH =
            q.depthIntrinsic.height * res.width_ DEPTH ∧
          q.rgbIntrinsic.width * res.height_ COLOR =
            q.rgbIntrinsic.height * res.width_ COLOR)) ∧
    (getCameraParam res l = none ↔
      ∀ q ∈ l, ¬ (q.depthIntrinsic.width * res.height_ DEPTH =
            q.depthIntrinsic.height * res.width_ DEPTH ∧
          q.rgbIntrinsic.width * res.height_ COLOR =
            q.rgbIntrinsic.height * res.width_ COLOR)) ∧
    (∀ pre post p, l = pre ++ p :: post → MatchesResolution res p →
      (∀ q ∈ pre, ¬ MatchesResolution res q) →
      getCameraParamIndex res l = (pre.length : Int)) ∧
    (getCameraParam res l = none → getCameraParamIndex res l = -1) := by
  refine ⟨fun p => getCameraParam_eq_some_iff res l p, getCameraParam_eq_none_iff res l, ?_, ?_⟩
  · intro pre post p hl hp hpre
    subst hl
    have := getCameraParamIndexFrom_eq res pre post p 0 hp hpre
    simpa [getCameraParamIndex] using this
  · intro h
    exact getCameraParamIndexFrom_none res l 0 ((getCameraParam_eq_none_iff res l).mp h)

/-- A witness of C11: the second entry is the first one with the configured aspect. -/
theorem getCameraParam_first_match_witness :
    getCameraParam res_640_480 [calib_1280_720, calib_10_20_30] = some calib_10_20_30 ∧
    getCameraParamIndex res_640_480 [calib_1280_720, calib_10_20_30] = 1 ∧
    getCameraParam res_640_480 [calib_1280_720] = none :=
  ⟨((getCameraParam_first_match res_640_480 [calib_1280_720, calib_10_20_30]).1
      calib_10_20_30).mpr
      ⟨[calib_1280_720], [], rfl, by decide, by decide⟩,
    (getCameraParam_first_match res_640_480 [calib_1280_720, calib_10_20_30]).2.2.1
      [calib_1280_720] [] calib_10_20_30 rfl (by decide)
      (by
        intro q hq
        rw [List.mem_singleton.mp hq]
        decide),
    (getCameraParam_first_match res_640_480 [calib_1280_720]).2.1.mpr (by decide)⟩

/-! ## The one-shot export flags -/

theorem publishDepthPointCloud_clears_flag (subscribers : Nat) (fl : CloudFlags)
    (depth_frame : VideoFrameInfo) (points : List OBPoint) (hsub : subscribers ≠ 0) :
    (publishDepthPointCloud subscribers true fl depth_frame points).flags.save_point_cloud_xyz_
      = false := by
  by_cases hsave : fl.save_point_cloud_xyz_ = true
  · simp [publishDepthPointCloud, hsub, hsave]
  · simp [publishDepthPointCloud, hsub, hsave]

/-- C12: a colour-registered generation call that runs (one subscriber, variant enabled) with
`save_point_cloud_xyzrgb_` set hands the frame to the PLY writer and returns with
`save_point_cloud_xyzrgb_` still set: the statement in its export block clears
`save_point_cloud_xyz_`, the flag of the other variant. The depth-only call in the same
situation does clear its own flag. -/
theorem publishColorPointCloud_leaves_export_flag_set (other : Bool)
    (depth_frame : VideoFrameInfo) (points : List OBColorPoint) (points_xyz : List OBPoint) :
    (publishColorPointCloud 1 true ⟨other, true⟩ depth_frame points).flags.save_point_cloud_xyzrgb_
      = true ∧
    (publishColorPointCloud 1 true ⟨other, true⟩ depth_frame points).flags.save_point_cloud_xyz_
      = false ∧
    (publishColorPointCloud 1 true ⟨other, true⟩ depth_frame points).saved = some points ∧
    (publishDepthPointCloud 1 true ⟨true, other⟩ depth_frame points_xyz).flags.save_point_cloud_xyz_
      = false ∧
    (publishDepthPointCloud 1 true ⟨true, other⟩ depth_frame points_xyz).flags.save_point_cloud_xyzrgb_
      = other := by
  simp [publishColorPointCloud, publishDepthPointCloud]

/-! ## A failed hardware start -/

/-- C13: in independent mode, when the hardware start of an enabled, subscribed, not started
stream `k` throws inside `startStream k`, the call returns normally after that one hardware
call, leaves the state as it was, `stream_started_[k]` false, and a later `startStream k` in
the same environment makes the hardware start call again. -/
theorem startStream_failure_leaves_stopped (env : Env) (s : NodeState) (k : stream_index_pair)
    (e : ObError) (hp : s.enable_pipeline_ = false) (he : s.enable_ k = true)
    (hs : s.stream_started_ k = false) (hn : env.numSubscribers k > 0)
    (hw : env.sensorStartStream k = some e) :
    (startStream env s k).thrown = none ∧
    (startStream env s k).calls = [HwCall.sensorStart k] ∧
    (startStream env s k).state = s ∧
    (startStream env s k).state.stream_started_ k = false ∧
    (startStream env (startStream env s k).state k).calls = [HwCall.sensorStart k] := by
  rw [startStream_failed env s k e hp he hs hn hw]
  refine ⟨rfl, rfl, rfl, hs, ?_⟩
  rw [startStream_failed env s k e hp he hs hn hw]

/-- A witness of C13: the depth sensor refuses to start. -/
theorem startStream_failure_leaves_stopped_witness :
    (startStream envFirstPipelineStartFails independentIdle DEPTH).thrown = none ∧
    (startStream envFirstPipelineStartFails independentIdle DEPTH).calls =
      [HwCall.sensorStart DEPTH] ∧
    (startStream envFirstPipelineStartFails independentIdle DEPTH).state = independentIdle ∧
    (startStream envFirstPipelineStartFails independentIdle DEPTH).state.stream_started_ DEPTH
      = false ∧
    (startStream envFirstPipelineStartFails
      (startStream envFirstPipelineStartFails independentIdle DEPTH).state DEPTH).calls =
      [HwCall.sensorStart DEPTH] :=
  startStream_failure_leaves_stopped envFirstPipelineStartFails independentIdle DEPTH ⟨3⟩
    rfl rfl rfl (by decide) rfl

/-! ## Colour-registered point clouds -/

theorem colorCloudLoop_eq (points : List OBColorPoint) (out : List PointXYZRGB) (n : Nat) :
    colorCloudLoop points out n =
      (out ++ (points.filter (fun p => decide (p.z > 0))).map colorPointOf,
        n + (points.filter (fun p => decide (p.z > 0))).length) := by
  induction points generalizing out n with
  | nil => simp [colorCloudLoop]
  | cons p rest ih =>
    by_cases hz : p.z > 0
    · simp [colorCloudLoop, hz, ih, colorPointOf]
      omega
    · simp [colorCloudLoop, hz, ih]

theorem toUint8_natCast (n : Nat) (h : n < 256) : toUint8 (n : ℚ) = n := by
  have hfl : Rat.floor (n : ℚ) = (n : Int) := by
    show ⌊(n : ℚ)⌋ = (n : Int)
    exact Int.floor_natCast n
  simp [toUint8, hfl, Nat.mod_eq_of_lt h]

/-- C14: with a subscriber present and the variant enabled, `publishColorPointCloud` publishes
a message whose points are the records with `z > 0`, in their original order, each as
`(x/1000, -y/1000, z/1000)` with `r`, `g`, `b` passed through the conversion to `uint8_t` and
nothing else (a channel holding a byte value is copied as it is); `width` is the number of
valid points and `height` is 1. -/
theorem publishColorPointCloud_valid_points (subscribers : Nat) (fl : CloudFlags)
    (depth_frame : VideoFrameInfo) (points : List OBColorPoint) (hsub : subscribers ≠ 0) :
    ∃ msg, (publishColorPointCloud subscribers true fl depth_frame points).published = some msg ∧
      msg.data = (points.filter (fun p => decide (p.z > 0))).map
        (fun p => { x := p.x / 1000, y := -p.y / 1000, z := p.z / 1000,
                    r := toUint8 p.r, g := toUint8 p.g, b := toUint8 p.b }) ∧
      msg.width = (points.filter (fun p => decide (p.z > 0))).length ∧
      msg.width = msg.data.length ∧
      msg.height = 1 ∧
      (∀ n : Nat, n < 256 → toUint8 (n : ℚ) = n) := by
  have hmap : (points.filter (fun p => decide (p.z > 0))).map colorPointOf =
      (points.filter (fun p => decide (p.z > 0))).map
        (fun p => { x := p.x / 1000, y := -p.y / 1000, z := p.z / 1000,
                    r := toUint8 p.r, g := toUint8 p.g, b := toUint8 p.b }) := by
    apply List.map_congr_left
    intro p _
    simp [colorPointOf, neg_div]
  have hdata : ((colorCloudLoop points [] 0).1.take (colorCloudLoop points [] 0).2) =
      (points.filter (fun p => decide (p.z > 0))).map colorPointOf := by
    rw [colorCloudLoop_eq]
    simp
  have hcount : (colorCloudLoop points [] 0).2 =
      (points.filter (fun p => decide (p.z > 0))).length := by
    rw [colorCloudLoop_eq]
    simp
  by_cases hsave : fl.save_point_cloud_xyzrgb_ = true
  · refine ⟨_, by simp [publishColorPointCloud, hsub, hsave]; rfl, ?_, ?_, ?_, rfl, ?_⟩
    · exact hdata.trans hmap
    · exact hcount
    · show (colorCloudLoop points [] 0).2 =
        ((colorCloudLoop points [] 0).1.take (colorCloudLoop points [] 0).2).length
      rw [hdata, List.length_map, hcount]
    · exact toUint8_natCast
  · refine ⟨_, by simp [publishColorPointCloud, hsub, hsave]; rfl, ?_, ?_, ?_, rfl, ?_⟩
    · exact hdata.trans hmap
    · exact hcount
    · show (colorCloudLoop points [] 0).2 =
        ((colorCloudLoop points [] 0).1.take (colorCloudLoop points [] 0).2).length
      rw [hdata, List.length_map, hcount]
    · exact toUint8_natCast

/-- A witness of C14: three records, one of them with `z = 0`. -/
theorem publishColorPointCloud_valid_points_witness :
    ∃ msg, (publishColorPointCloud 1 true ⟨false, false⟩ ⟨3, 1, 7⟩
        [⟨1000, 2000, 3000, 255, 128, 0⟩, ⟨1, 1, 0, 9, 9, 9⟩,
          ⟨5, 5, 7, 1, 2, 3⟩]).published = some msg ∧
      msg.data = (([⟨1000, 2000, 3000, 255, 128, 0⟩, ⟨1, 1, 0, 9, 9, 9⟩,
          ⟨5, 5, 7, 1, 2, 3⟩] : List OBColorPoint).filter (fun p => decide (p.z > 0))).map
        (fun p => { x := p.x / 1000, y := -p.y / 1000, z := p.z / 1000,
                    r := toUint8 p.r, g := toUint8 p.g, b := toUint8 p.b }) ∧
      msg.width = (([⟨1000, 2000, 3000, 255, 128, 0⟩, ⟨1, 1, 0, 9, 9, 9⟩,
          ⟨5, 5, 7, 1, 2, 3⟩] : List OBColorPoint).filter
            (fun p => decide (p.z > 0))).length ∧
      msg.width = msg.data.length ∧
      msg.height = 1 ∧
      (∀ n : Nat, n < 256 → toUint8 (n : ℚ) = n) :=
  publishColorPointCloud_valid_points 1 ⟨false, false⟩ ⟨3, 1, 7⟩
    [⟨1000, 2000, 3000, 255, 128, 0⟩, ⟨1, 1, 0, 9, 9, 9⟩, ⟨5, 5, 7, 1, 2, 3⟩] (by decide)

/-! ## Stopping one stream -/

/-- C15: for distinct streams `j` and `k`, `stopStream k` leaves `stream_started_[j]` and
`enable_[j]` as they were and makes no hardware stop on the sensor of `j`; its only possible
hardware call is the stop of `k`. -/
theorem stopStream_other_untouched (env : Env) (s : NodeState) (j k : stream_index_pair)
    (hp : s.enable_pipeline_ = false) (hjk : j ≠ k) :
    (stopStream env s k).state.stream_started_ j = s.stream_started_ j ∧
    (stopStream env s k).state.enable_ j = s.enable_ j ∧
    HwCall.sensorStop j ∉ (stopStream env s k).calls ∧
    (∀ c ∈ (stopStream env s k).calls, c = HwCall.sensorStop k) := by
  by_cases hs : s.stream_started_ k = true
  swap
  · rw [stopStream_skip env s k (Or.inr (by simpa using hs))]
    simp [Outcome.skip]
  cases hw : env.sensorStopStream k with
  | some e =>
    rw [stopStream_failed env s k e hp hs hw]
    simp [hjk]
  | none =>
    rw [stopStream_ok env s k hp hs hw]
    simp [hjk, Function.update]

/-- A witness of C15: depth and colour run; stopping depth leaves colour running. -/
theorem stopStream_other_untouched_witness :
    (stopStream envAllSubscribed independentDepthColorStarted DEPTH).state.stream_started_ COLOR
      = true ∧
    (stopStream envAllSubscribed independentDepthColorStarted DEPTH).state.enable_ COLOR
      = true ∧
    HwCall.sensorStop COLOR ∉
      (stopStream envAllSubscribed independentDepthColorStarted DEPTH).calls ∧
    (stopStream envAllSubscribed independentDepthColorStarted DEPTH).calls =
      [HwCall.sensorStop DEPTH] :=
  have h := stopStream_other_untouched envAllSubscribed independentDepthColorStarted
    COLOR DEPTH rfl (by decide)
  ⟨h.1, h.2.1, h.2.2.1, by decide⟩

/-! ## Static transforms without a calibration match, and their republication -/

/-- C16: when no calibration entry satisfies the two equations for the configured
resolutions, `calcAndPublishStaticTransform` still appends its four transforms, publishes no
extrinsics, and the first of the four, from the depth frame to the colour frame, has rotation
`(0, 0, 0, 1)` and translation zero. -/
theorem calcAndPublishStaticTransform_without_match
    (rotationMatrixToQuaternion : List ℚ → Quaternion) (res : Resolution)
    (camera_params : List OBCameraParam) (now : Nat) (msgs : List TransformStamped)
    (hno : ∀ q ∈ camera_params,
      ¬ (q.depthIntrinsic.width * res.height_ DEPTH =
          q.depthIntrinsic.height * res.width_ DEPTH ∧
        q.rgbIntrinsic.width * res.height_ COLOR =
          q.rgbIntrinsic.height * res.width_ COLOR)) :
    calcAndPublishStaticTransform rotationMatrixToQuaternion res camera_params now msgs =
      some
        { static_tf_msgs_ := msgs ++
            [{ stamp := now, frame_id := FrameId.frame_id_ DEPTH
               child_frame_id := FrameId.frame_id_ COLOR
               translation := { x := 0, y := 0, z := 0 }
               rotation := { x := 0, y := 0, z := 0, w := 1 } },
             { stamp := now, frame_id := FrameId.frame_id_ COLOR
               child_frame_id := FrameId.optical_frame_id_ COLOR
               translation := { x := 0, y := 0, z := 0 }
               rotation := { x := -1 / 2, y := 1 / 2, z := -1 / 2, w := 1 / 2 } },
             { stamp := now, frame_id := FrameId.frame_id_ DEPTH
               child_frame_id := FrameId.optical_frame_id_ DEPTH
               translation := { x := 0, y := 0, z := 0 }
               rotation := { x := -1 / 2, y := 1 / 2, z := -1 / 2, w := 1 / 2 } },
             { stamp := now, frame_id := FrameId.camera_link_frame_id_
               child_frame_id := FrameId.frame_id_ DEPTH
               translation := { x := 0, y := 0, z := 0 }
               rotation := { x := 0, y := 0, z := 0, w := 1 } }]
          extrinsics := none } := by
  have hnone : getCameraParam res camera_params = none :=
    (getCameraParam_eq_none_iff res camera_params).mpr hno
  rw [calcAndPublishStaticTransform_eq, hnone]
  rfl

/-- A witness of C16: the only calibration entry is 1280 x 720, the streams are 640 x 480. -/
theorem calcAndPublishStaticTransform_without_match_witness :
    (calcAndPublishStaticTransform (fun _ => quaternion_optical) res_640_480
        [calib_1280_720] 5 []).map
      (fun r => (r.static_tf_msgs_.length,
        r.static_tf_msgs_.head?.map (fun m => (m.rotation, m.translation)))) =
      some (4, some ({ x := 0, y := 0, z := 0, w := 1 }, { x := 0, y := 0, z := 0 })) := by
  rw [calcAndPublishStaticTransform_without_match (fun _ => quaternion_optical) res_640_480
    [calib_1280_720] 5 []
    (by
      intro q hq
      rw [List.mem_singleton.mp hq]
      decide)]
  rfl

/-- C17: one iteration of the loop of `publishDynamicTransforms` at time `t` keeps the number
of stored transforms, their order and, for each of them, the parent frame, the child frame, the
translation and the rotation; it sends the stored list, and every transform in it carries the
timestamp `t`. -/
theorem publishDynamicTransformsStep_only_stamp (t : Nat) (msgs : List TransformStamped) :
    (publishDynamicTransformsStep t msgs).1.length = msgs.length ∧
    (publishDynamicTransformsStep t msgs).1.map
        (fun m => (m.frame_id, m.child_frame_id, m.translation, m.rotation)) =
      msgs.map (fun m => (m.frame_id, m.child_frame_id, m.translation, m.rotation)) ∧
    (publishDynamicTransformsStep t msgs).1 = msgs.map (fun m => { m with stamp := t }) ∧
    (publishDynamicTransformsStep t msgs).2 = (publishDynamicTransformsStep t msgs).1 ∧
    (∀ m ∈ (publishDynamicTransformsStep t msgs).2, m.stamp = t) := by
  refine ⟨?_, ?_, rfl, rfl, ?_⟩
  · simp [publishDynamicTransformsStep]
  · simp [publishDynamicTransformsStep, List.map_map, Function.comp_def]
  · intro m hm
    simp only [publishDynamicTransformsStep, List.mem_map] at hm
    obtain ⟨m0, _, rfl⟩ := hm
    rfl

end orbbec_camera
